import Mathlib

/-!
Verification development for the nsx-etn-monitoring service core.

Shallow embedding, translated from the Python sources:
 - `app/ssh_checker.py`   : `CertificateChecker.check_certificate`,
   `CertificateChecker._parse_cert_date`,
   `CertificateChecker.check_multiple_certificates`;
 - `app/scheduler.py`     : `SchedulerService.sync_nsx_nodes`;
 - `app/nsx_client.py`    : `NSXClient.get_transport_nodes`,
   `NSXClient.get_edge_transport_nodes`;
 - `app/telegram_notifier.py` : `TelegramNotifier.check_and_notify_expiring_certs`,
   `TelegramNotifier._send_cert_notifications`;
 - `app/models.py`        : the four persisted record shapes.

Naive Python `datetime` values are modelled as integer microseconds since an
arbitrary fixed epoch; `timedelta` as its normalized (days, seconds,
microseconds) triple.  Database sessions are modelled by explicit state
passing; network and SSH effects by explicit outcome parameters.
-/

namespace NsxEtn

/-! ## Python integer time arithmetic -/

def USEC_PER_SEC : Int := 1000000

def SEC_PER_DAY : Int := 86400

def USEC_PER_DAY : Int := 86400000000

/-- Normalized Python `timedelta`: invariant `0 ≤ seconds < 86400`,
`0 ≤ microseconds < 10^6`, `days` of either sign (CPython's representation). -/
structure PyTimedelta where
  days : Int
  seconds : Int
  microseconds : Int
deriving Repr, DecidableEq

/-- Normalization performed by CPython's `timedelta` constructor on a raw
microsecond total (as produced by `datetime.__sub__`): `divmod` by `10^6`
splits off sub-second microseconds, then `divmod` by `86400` splits whole
days from in-day seconds.  Python `divmod` floors, hence `Int.fdiv`/`Int.fmod`. -/
def py_timedelta_of_usec (total : Int) : PyTimedelta :=
  let s := total.fdiv USEC_PER_SEC
  let us := total.fmod USEC_PER_SEC
  let d := s.fdiv SEC_PER_DAY
  let s2 := s.fmod SEC_PER_DAY
  { days := d, seconds := s2, microseconds := us }

/-! ## Persisted record shapes (`app/models.py`)

`created_at` / `updated_at` bookkeeping columns are omitted: no claim or
code path under verification reads them. -/

/-- `models.TransportNode` (an Edge Transport Node row). -/
structure TransportNode where
  id : String
  display_name : String
  ip_address : String
  maintenance_mode : String
  first_seen_at : Nat
  last_seen_at : Nat
  is_active : Bool
deriving Repr, DecidableEq

/-- `models.CertificateCheck` (append-only check history row).
`cert_expiry_date` is a naive datetime in microseconds when present. -/
structure CertificateCheck where
  node_id : String
  cert_expiry_date : Option Int
  days_remaining : Int
  check_status : String
  error_message : Option String
  checked_at : Nat
deriving Repr, DecidableEq

/-- `models.NodeEvent` (lifecycle audit row). -/
structure NodeEvent where
  node_id : String
  event_type : String
  display_name : String
  ip_address : String
deriving Repr, DecidableEq

/-- `models.TelegramNotification` (dedup record; natural key
(node_id, notification_type, notification_date)). -/
structure TelegramNotification where
  node_id : String
  notification_type : String
  notification_date : String
deriving Repr, DecidableEq

/-! ## Severity buckets (`telegram_notifier.py` lines 92-105)

The single pass

    for node, check in node_latest_checks.values():
        days = check.days_remaining
        if days <= 0: expired.append(...)
        elif days <= 7: expiring_very_soon.append(...)
        elif days <= config.CERT_WARNING_DAYS: expiring_soon.append(...)

is embedded as three order-preserving filters with the same mutually
exclusive guards. -/

def expired_bucket (latest : List (TransportNode × CertificateCheck)) :
    List (TransportNode × CertificateCheck) :=
  latest.filter (fun nc => nc.2.days_remaining ≤ 0)

def expiring_very_soon_bucket (latest : List (TransportNode × CertificateCheck)) :
    List (TransportNode × CertificateCheck) :=
  latest.filter (fun nc => ¬ nc.2.days_remaining ≤ 0 ∧ nc.2.days_remaining ≤ 7)

def expiring_soon_bucket (warning_days : Int)
    (latest : List (TransportNode × CertificateCheck)) :
    List (TransportNode × CertificateCheck) :=
  latest.filter (fun nc => ¬ nc.2.days_remaining ≤ 0 ∧ ¬ nc.2.days_remaining ≤ 7 ∧
    nc.2.days_remaining ≤ warning_days)

/-- The same `if/elif` chain as a per-value classifier: the notification
type (tier) a given `days_remaining` value is routed to, `none` meaning no
tier.  First match wins, exactly as in the source's `elif` ladder. -/
def classify_days (warning_days : Int) (days : Int) : Option String :=
  if days ≤ 0 then some "cert_expired"
  else if days ≤ 7 then some "cert_expiring_7d"
  else if days ≤ warning_days then some "cert_expiring_30d"
  else none

/-! ## The certificate date parser (`ssh_checker.py`, `_parse_cert_date`)

Strings are modelled as `List Char`.  `datetime.strptime(s, fmt)` with the
fixed format string is modelled from CPython `_strptime` semantics: the
format compiles to a regex that must match the whole input, `%b` is a
case-insensitive three-letter month-name alternation, a space in the format
matches one or more whitespace characters, `%d`/`%H`/`%M`/`%S` match one or
two digits within their ranges, `%Y` matches exactly four digits, and the
final `datetime` construction additionally validates the calendar date
(raising `ValueError`, which `_parse_cert_date` catches, returning `None`). -/

/-- Parsed naive `datetime` fields. -/
structure PyDatetime where
  year : Nat
  month : Nat
  day : Nat
  hour : Nat
  minute : Nat
  second : Nat
deriving Repr, DecidableEq

/-- ASCII whitespace as matched by Python's `str.strip` and regex `\s`. -/
def isPySpace (c : Char) : Bool :=
  c == ' ' || c == '\t' || c == '\n' || c == '\r' || c == '\x0b' || c == '\x0c'

/-- Python `str.strip()` on both ends. -/
def py_strip (cs : List Char) : List Char :=
  ((cs.dropWhile isPySpace).reverse.dropWhile isPySpace).reverse

/-- Does `pre` start the list `cs`. -/
def starts_with : List Char → List Char → Bool
  | [], _ => true
  | _ :: _, [] => false
  | p :: ps, c :: cs => p == c && starts_with ps cs

/-- The literal separator `"notAfter="` of `openssl_output.split("notAfter=")`. -/
def notAfterSep : List Char := "notAfter=".data

/-- Python `"notAfter=" in s`. -/
def contains_sep : List Char → Bool
  | [] => false
  | c :: cs => starts_with notAfterSep (c :: cs) || contains_sep cs

/-- Characters strictly after the first occurrence of `"notAfter="`
(everything, when the separator does not occur). -/
def after_first_sep : List Char → List Char
  | [] => []
  | c :: cs =>
    if starts_with notAfterSep (c :: cs) then (c :: cs).drop notAfterSep.length
    else after_first_sep cs

/-- Characters before the first occurrence of `"notAfter="` (the whole list
when the separator does not occur).  `up_to_sep (after_first_sep cs)` is
element `[1]` of Python's `cs.split("notAfter=")` when the separator occurs. -/
def up_to_sep : List Char → List Char
  | [] => []
  | c :: cs =>
    if starts_with notAfterSep (c :: cs) then []
    else c :: up_to_sep cs

/-- Python `date_str.endswith(" GMT")`. -/
def ends_with_gmt (cs : List Char) : Bool :=
  starts_with " GMT".data.reverse cs.reverse

/-- C-locale lowercase month abbreviation table of `%b` (matched
case-insensitively), mapped to the 1-based month number. -/
def month_from_abbrev (l : List Char) : Option Nat :=
  if l = "jan".data then some 1
  else if l = "feb".data then some 2
  else if l = "mar".data then some 3
  else if l = "apr".data then some 4
  else if l = "may".data then some 5
  else if l = "jun".data then some 6
  else if l = "jul".data then some 7
  else if l = "aug".data then some 8
  else if l = "sep".data then some 9
  else if l = "oct".data then some 10
  else if l = "nov".data then some 11
  else if l = "dec".data then some 12
  else none

/-- Decimal value of a digit list. -/
def digits_val (ds : List Char) : Nat :=
  ds.foldl (fun a c => 10 * a + (c.toNat - 48)) 0

/-- Gregorian leap year, as validated by the `datetime` constructor. -/
def is_leap (y : Nat) : Bool :=
  y % 4 = 0 && (y % 100 != 0 || y % 400 = 0)

/-- Day count of a month, as validated by the `datetime` constructor. -/
def days_in_month (y m : Nat) : Nat :=
  if m = 2 then (if is_leap y then 29 else 28)
  else if m = 4 ∨ m = 6 ∨ m = 9 ∨ m = 11 then 30
  else 31

/-- `\s+` of the compiled format: consume at least one whitespace char. -/
def parse_space (cs : List Char) : Option (List Char) :=
  if (cs.takeWhile isPySpace).isEmpty then none
  else some (cs.dropWhile isPySpace)

/-- A one-or-two digit numeric directive with an inclusive value range
(`%d`, `%H`, `%M`, `%S`): consume the maximal digit run; lengths other than
one or two, or out-of-range values, fail (regex non-match, or `ValueError`
on construction for leap seconds). -/
def parse_num2 (lo hi : Nat) (cs : List Char) : Option (Nat × List Char) :=
  if (cs.takeWhile Char.isDigit).isEmpty then none
  else if 2 < (cs.takeWhile Char.isDigit).length then none
  else if digits_val (cs.takeWhile Char.isDigit) < lo then none
  else if hi < digits_val (cs.takeWhile Char.isDigit) then none
  else some (digits_val (cs.takeWhile Char.isDigit), cs.dropWhile Char.isDigit)

/-- `%Y`: exactly four digits; year 0 fails `datetime` construction. -/
def parse_year (cs : List Char) : Option (Nat × List Char) :=
  if (cs.takeWhile Char.isDigit).length = 4 then
    if digits_val (cs.takeWhile Char.isDigit) = 0 then none
    else some (digits_val (cs.takeWhile Char.isDigit), cs.dropWhile Char.isDigit)
  else none

/-- A literal `:` of the format. -/
def parse_colon (cs : List Char) : Option (List Char) :=
  if cs.head? = some ':' then some cs.tail else none

/-- Model of `datetime.strptime(s, "%b %d %H:%M:%S %Y")`, `none` for a
regex non-match or an invalid calendar date (`ValueError`). -/
def strptime_b_d_HMS_Y (cs : List Char) : Option PyDatetime :=
  (month_from_abbrev ((cs.take 3).map Char.toLower)).bind fun mon =>
  (parse_space (cs.drop 3)).bind fun r1 =>
  (parse_num2 1 31 r1).bind fun dp =>
  (parse_space dp.2).bind fun r3 =>
  (parse_num2 0 23 r3).bind fun hp =>
  (parse_colon hp.2).bind fun r5 =>
  (parse_num2 0 59 r5).bind fun mp =>
  (parse_colon mp.2).bind fun r7 =>
  (parse_num2 0 59 r7).bind fun sp =>
  (parse_space sp.2).bind fun r9 =>
  (parse_year r9).bind fun yp =>
  if yp.2.isEmpty then
    if dp.1 ≤ days_in_month yp.1 mon then
      some ⟨yp.1, mon, dp.1, hp.1, mp.1, sp.1⟩
    else none
  else none

/-- The normalization `_parse_cert_date` performs before `strptime`:
take Python `openssl_output.split("notAfter=")[1].strip()` when the
separator occurs, else `openssl_output.strip()`; then drop a trailing
`" GMT"` (`date_str[:-4].strip()`). -/
def cert_date_normalize (cs : List Char) : List Char :=
  let date_str :=
    if contains_sep cs then py_strip (up_to_sep (after_first_sep cs))
    else py_strip cs
  if ends_with_gmt date_str then py_strip (date_str.take (date_str.length - 4))
  else date_str

/-- `CertificateChecker._parse_cert_date` (ssh_checker.py lines 141-173). -/
def parse_cert_date (s : String) : Option PyDatetime :=
  strptime_b_d_HMS_Y (cert_date_normalize s.data)

/-- Modelled from the claim's words, for comparison: strip an optional
literal *prefix* `"notAfter="` and an optional trailing `" GMT"`, then
require the remainder to match the fixed format. -/
def claim_parse_cert_date (s : String) : Option PyDatetime :=
  let cs := s.data
  let cs1 := if starts_with notAfterSep cs then cs.drop notAfterSep.length else cs
  let cs2 := if ends_with_gmt cs1 then cs1.take (cs1.length - 4) else cs1
  strptime_b_d_HMS_Y cs2

/-! ### Declarative grammar of the fixed certificate date format -/

/-- A string matches `"%b %d %H:%M:%S %Y"` with resulting fields `dt`:
it decomposes into a case-insensitive three-letter month abbreviation,
runs of whitespace, bounded one-or-two-digit day/hour/minute/second tokens
separated by literal colons, and a four-digit year, denoting a valid
calendar date. -/
def cert_format_matches (cs : List Char) (dt : PyDatetime) : Prop :=
  ∃ mon w1 dTok w2 hTok mTok sTok w3 yTok : List Char,
    cs = mon ++ w1 ++ dTok ++ w2 ++ hTok ++ [':'] ++ mTok ++ [':'] ++ sTok
        ++ w3 ++ yTok ∧
    month_from_abbrev (mon.map Char.toLower) = some dt.month ∧
    w1 ≠ [] ∧ (∀ c ∈ w1, isPySpace c = true) ∧
    dTok ≠ [] ∧ (∀ c ∈ dTok, c.isDigit = true) ∧ dTok.length ≤ 2 ∧
    digits_val dTok = dt.day ∧ 1 ≤ dt.day ∧ dt.day ≤ 31 ∧
    w2 ≠ [] ∧ (∀ c ∈ w2, isPySpace c = true) ∧
    hTok ≠ [] ∧ (∀ c ∈ hTok, c.isDigit = true) ∧ hTok.length ≤ 2 ∧
    digits_val hTok = dt.hour ∧ dt.hour ≤ 23 ∧
    mTok ≠ [] ∧ (∀ c ∈ mTok, c.isDigit = true) ∧ mTok.length ≤ 2 ∧
    digits_val mTok = dt.minute ∧ dt.minute ≤ 59 ∧
    sTok ≠ [] ∧ (∀ c ∈ sTok, c.isDigit = true) ∧ sTok.length ≤ 2 ∧
    digits_val sTok = dt.second ∧ dt.second ≤ 59 ∧
    w3 ≠ [] ∧ (∀ c ∈ w3, isPySpace c = true) ∧
    (∀ c ∈ yTok, c.isDigit = true) ∧ yTok.length = 4 ∧
    digits_val yTok = dt.year ∧ dt.year ≠ 0 ∧
    dt.day ≤ days_in_month dt.year dt.month

/-! ## The certificate prober (`ssh_checker.py`, `check_certificate`) -/

/-- Outcome of running the fixed openssl command inside an established
SSH session: a raised error (by family, carrying the message text) or a
completed command with its exit status and captured streams. -/
inductive CmdOutcome where
  | raisesSsh (msg : String)
  | raisesTimeout
  | raisesOther (msg : String)
  | done (exitStatus : Int) (stdout : String) (stderr : String)
deriving Repr, DecidableEq

/-- Outcome of the SSH connection attempt for one probe: `asyncssh.Error`,
`asyncio.TimeoutError`, any other exception, or an established session
with a command outcome. -/
inductive SshEnv where
  | connSshError (msg : String)
  | connTimeout
  | connOther (msg : String)
  | connected (cmd : CmdOutcome)
deriving Repr, DecidableEq

/-- The result dict built by `check_certificate`, and the entries of
`check_multiple_certificates`.  The success path of the source adds a
`total_seconds` key, unread by every consumer (the scheduler persists only
the fields below) and involving float division, so it is not modelled; the
exception branch of `check_multiple_certificates` builds a dict without a
`cert_expiry_date` key, modelled as `none`. -/
structure CheckResult where
  node_id : String
  host : String
  status : String
  cert_expiry_date : Option PyDatetime
  days_remaining : Option Int
  error_message : Option String
deriving Repr, DecidableEq

/-- CPython `_DAYS_BEFORE_MONTH` plus the leap-day adjustment: days in the
year before month `m`. -/
def days_before_month (y m : Nat) : Nat :=
  (if m = 1 then 0 else if m = 2 then 31 else if m = 3 then 59
   else if m = 4 then 90 else if m = 5 then 120 else if m = 6 then 151
   else if m = 7 then 181 else if m = 8 then 212 else if m = 9 then 243
   else if m = 10 then 273 else if m = 11 then 304 else 334)
  + (if 2 < m ∧ is_leap y then 1 else 0)

/-- CPython `date.toordinal`: proleptic Gregorian ordinal of the date. -/
def date_toordinal (y m d : Nat) : Nat :=
  365 * (y - 1) + (y - 1) / 4 - (y - 1) / 100 + (y - 1) / 400
    + days_before_month y m + d

/-- A naive datetime as integer microseconds since the proleptic epoch;
`datetime.__sub__` equals subtraction of these totals fed through the
`timedelta` normalization. -/
def py_datetime_to_usec (dt : PyDatetime) : Int :=
  ((date_toordinal dt.year dt.month dt.day : Int) * SEC_PER_DAY
    + dt.hour * 3600 + dt.minute * 60 + dt.second) * USEC_PER_SEC

/-- `CertificateChecker.check_certificate` (ssh_checker.py lines 24-139).
The SSH effects are abstracted by `env`; `now` is `datetime.utcnow()` in
microseconds; `timeout` the configured connect/login timeout in seconds
(only its rendering in the timeout message is observable). -/
def check_certificate (env : SshEnv) (now : Int) (timeout : Int)
    (host node_id : String) : CheckResult :=
  let base : CheckResult :=
    { node_id := node_id, host := host, status := "error",
      cert_expiry_date := none, days_remaining := none,
      error_message := none }
  match env with
  | .connSshError msg =>
    { base with
      status := "ssh_failed",
      error_message := some ("SSH connection error: " ++ msg) }
  | .connTimeout =>
    { base with
      status := "timeout",
      error_message :=
        some ("Connection timeout after " ++ toString timeout ++ "s") }
  | .connOther msg =>
    { base with
      status := "error",
      error_message := some ("Unexpected error: " ++ msg) }
  | .connected cmd =>
    match cmd with
    | .raisesSsh msg =>
      { base with
        status := "ssh_failed",
        error_message := some ("SSH connection error: " ++ msg) }
    | .raisesTimeout =>
      { base with
        status := "timeout",
        error_message :=
          some ("Connection timeout after " ++ toString timeout ++ "s") }
    | .raisesOther msg =>
      { base with
        status := "error",
        error_message := some ("Unexpected error: " ++ msg) }
    | .done exitStatus stdout stderr =>
      if exitStatus ≠ 0 then
        { base with
          status := "error",
          error_message := some ("Command failed: " ++ stderr) }
      else
        match parse_cert_date (String.mk (py_strip stdout.data)) with
        | some expiry =>
          { base with
            status := "success",
            cert_expiry_date := some expiry,
            days_remaining :=
              some (py_timedelta_of_usec
                (py_datetime_to_usec expiry - now)).days }
        | none =>
          { base with
            status := "error",
            error_message :=
              some ("Failed to parse date from: "
                ++ String.mk (py_strip stdout.data)) }

/-! ## The check orchestrator (`ssh_checker.py`, `check_multiple_certificates`) -/

/-- One probe target (`hosts` entry of `check_multiple_certificates`). -/
structure HostInfo where
  host : String
  node_id : String
deriving Repr, DecidableEq

/-- A probe as observed at the `asyncio.gather(..., return_exceptions=True)`
join point: either the returned result dict or a raised exception's text. -/
inductive ProbeOutcome where
  | res (r : CheckResult)
  | exc (msg : String)
deriving Repr, DecidableEq

/-- Post-gather handling of one slot: an exception is converted to an
`error` record carrying the fault description (lines 197-209). -/
def gather_slot (outcome : HostInfo → ProbeOutcome) (h : HostInfo) :
    CheckResult :=
  match outcome h with
  | .res r => r
  | .exc m =>
    { node_id := h.node_id, host := h.host, status := "error",
      cert_expiry_date := none, days_remaining := some (-999),
      error_message := some ("Unhandled exception: " ++ m) }

/-- `CertificateChecker.check_multiple_certificates` (lines 175-215): one
task per host, gathered positionally, exceptions converted per slot. -/
def check_multiple_certificates (outcome : HostInfo → ProbeOutcome)
    (hosts : List HostInfo) : List CheckResult :=
  hosts.map (gather_slot outcome)

/-! ## The NSX client (`nsx_client.py`) -/

/-- A raw transport-node entry of the NSX API response, with the fields
`get_edge_transport_nodes` reads (`resource_type` and `ip_addresses` come
from `node_deployment_info`; absent optional keys are `none`). -/
structure RawNode where
  resource_type : String
  id : String
  display_name : String
  ip_addresses : List String
  maintenance_mode : Option String
  hostname : Option String
deriving Repr, DecidableEq

/-- Outcome of the GET `/api/v1/transport-nodes` request: a 200 response
with its `results` array, a non-200 status, or a raised exception. -/
inductive FetchOutcome where
  | httpOk (results : List RawNode)
  | httpError (code : Nat) (text : String)
  | exc (msg : String)
deriving Repr, DecidableEq

/-- `NSXClient.get_transport_nodes` (nsx_client.py lines 101-122): the
`results` array on HTTP 200; the EMPTY LIST both on a non-200 status and
on any exception. -/
def get_transport_nodes : FetchOutcome → List RawNode
  | .httpOk rs => rs
  | .httpError _ _ => []
  | .exc _ => []

/-- An entry of the snapshot list built by `get_edge_transport_nodes`. -/
structure NSXNode where
  node_id : String
  display_name : String
  ip_address : String
  maintenance_mode : String
  hostname : Option String
deriving Repr, DecidableEq

/-- `NSXClient.get_edge_transport_nodes` (lines 124-167): keep `EdgeNode`
entries, take the first address, apply the optional whitelist (a node
with no address passes the whitelist test, since Python `None not in
whitelist` is true), and keep only nodes with a non-empty address. -/
def ip_not_in_whitelist (ip : Option String) (whitelist : List String) :
    Bool :=
  match ip with
  | some s => ¬ s ∈ whitelist
  | none => true

def get_edge_transport_nodes (fetch : FetchOutcome)
    (whitelist : List String) : List NSXNode :=
  (get_transport_nodes fetch).filterMap (fun n =>
    if n.resource_type = "EdgeNode" then
      if ¬ whitelist.isEmpty ∧
          ip_not_in_whitelist n.ip_addresses.head? whitelist then none
      else
        match n.ip_addresses.head? with
        | some s =>
          if s ≠ "" then
            some ⟨n.id, n.display_name, s, n.maintenance_mode.getD "UNKNOWN",
              n.hostname⟩
          else none
        | none => none
    else none)

/-! ## Reconciliation (`scheduler.py`, `sync_nsx_nodes`) -/

/-- Lookup in the `existing_nodes` dict keyed by row id. -/
def find_node (existing : List TransportNode) (nid : String) :
    Option TransportNode :=
  existing.find? (fun n => n.id = nid)

/-- Row creation of the brand-new-node branch (lines 109-119). -/
def new_node (s : NSXNode) (now : Nat) : TransportNode :=
  { id := s.node_id, display_name := s.display_name,
    ip_address := s.ip_address, maintenance_mode := s.maintenance_mode,
    first_seen_at := now, last_seen_at := now, is_active := true }

/-- Field refresh shared by the reappeared and silent-update branches
(lines 134-138 and 151-155). -/
def refresh_node (n : TransportNode) (s : NSXNode) (now : Nat) :
    TransportNode :=
  { n with
    last_seen_at := now, ip_address := s.ip_address,
    display_name := s.display_name, maintenance_mode := s.maintenance_mode }

/-- The `added` NodeEvent row (lines 122-127): fields from the snapshot. -/
def added_event (s : NSXNode) : NodeEvent :=
  ⟨s.node_id, "added", s.display_name, s.ip_address⟩

/-- The `reappeared` NodeEvent row (lines 140-145): fields from the
snapshot. -/
def reappeared_event (s : NSXNode) : NodeEvent :=
  ⟨s.node_id, "reappeared", s.display_name, s.ip_address⟩

/-- The `removed` NodeEvent row (lines 164-169): fields from the persisted
row. -/
def removed_event (n : TransportNode) : NodeEvent :=
  ⟨n.id, "removed", n.display_name, n.ip_address⟩

/-- The events emitted by the single pass over the snapshot (lines
104-155): one `added` event per id absent from the store, one `reappeared`
event per persisted-but-inactive id, nothing for the silent update. -/
def snapshot_events (existing : List TransportNode) :
    List NSXNode → List NodeEvent
  | [] => []
  | s :: rest =>
    (match find_node existing s.node_id with
     | none => [added_event s]
     | some e =>
       if e.is_active then []
       else [reappeared_event s])
    ++ snapshot_events existing rest

/-- The events of the removed pass (lines 157-171): one `removed` event
per persisted id absent from the snapshot, with name and address read from
the persisted row (which the snapshot pass never touched). -/
def removed_events (existing : List TransportNode) (snapIds : List String) :
    List NodeEvent :=
  (existing.filter (fun n => n.id ∉ snapIds)).map removed_event

/-- Net per-row effect on a persisted row: refreshed (and reactivated when
it was inactive) when its id is in the snapshot; deactivated otherwise
(the removed pass runs over every persisted id not in the snapshot,
without consulting `is_active`). -/
def sync_row_update (snapshot : List NSXNode) (now : Nat)
    (n : TransportNode) : TransportNode :=
  match snapshot.find? (fun s => s.node_id = n.id) with
  | some s =>
    if n.is_active then refresh_node n s now
    else { refresh_node n s now with is_active := true }
  | none => { n with is_active := false }

/-- `SchedulerService.sync_nsx_nodes` (scheduler.py lines 71-188) as a
function from (snapshot, persisted store, clock) to (updated store,
emitted events).  The `if not nsx_nodes: return` guard (lines 79-81) makes
an empty snapshot a no-op.  The store is the row multiset: surviving rows
in their original order followed by newly created rows in snapshot
order. -/
def sync_nsx_nodes (snapshot : List NSXNode) (existing : List TransportNode)
    (now : Nat) : List TransportNode × List NodeEvent :=
  if snapshot.isEmpty then (existing, [])
  else
    (existing.map (sync_row_update snapshot now)
       ++ (snapshot.filter
            (fun s => (find_node existing s.node_id).isNone)).map
          (fun s => new_node s now),
     snapshot_events existing snapshot
       ++ removed_events existing (snapshot.map (fun s => s.node_id)))

/-- Snapshot classification used by the characterizations: a snapshot id
not in the store at all. -/
def is_new_in (existing : List TransportNode) (s : NSXNode) : Bool :=
  (find_node existing s.node_id).isNone

/-- Snapshot classification: a persisted id whose row is inactive. -/
def is_reappeared_in (existing : List TransportNode) (s : NSXNode) : Bool :=
  match find_node existing s.node_id with
  | some e => !e.is_active
  | none => false

/-! ## Latest-successful-check selection
(`telegram_notifier.py` lines 74-90)

The query joins active nodes with their checks, keeps `check_status ==
'success'` rows, orders by `checked_at` descending, and the dict build
keeps the first row per node id (Python dict insertion order). -/

/-- The `ORDER BY checked_at DESC` comparison on joined rows. -/
def check_row_desc (a b : TransportNode × CertificateCheck) : Prop :=
  b.2.checked_at ≤ a.2.checked_at

instance : DecidableRel check_row_desc := fun a b =>
  inferInstanceAs (Decidable (b.2.checked_at ≤ a.2.checked_at))

instance : IsTotal (TransportNode × CertificateCheck) check_row_desc :=
  ⟨fun a b => Nat.le_total b.2.checked_at a.2.checked_at⟩

instance : IsTrans (TransportNode × CertificateCheck) check_row_desc :=
  ⟨fun _ _ _ hab hbc => Nat.le_trans hbc hab⟩

/-- The joined, filtered row set of the query (active nodes ×
their successful checks). -/
def joined_success_rows (nodes : List TransportNode)
    (checks : List CertificateCheck) :
    List (TransportNode × CertificateCheck) :=
  (nodes.filter (fun n => n.is_active)).bind (fun n =>
    (checks.filter (fun c => c.node_id = n.id ∧ c.check_status = "success")).map
      (fun c => (n, c)))

/-- The rows in `ORDER BY checked_at DESC` order. -/
def sorted_success_rows (nodes : List TransportNode)
    (checks : List CertificateCheck) :
    List (TransportNode × CertificateCheck) :=
  List.insertionSort check_row_desc (joined_success_rows nodes checks)

/-- The first-wins dict build (lines 87-90), carrying the set of node ids
already inserted: a row whose id was already taken is skipped. -/
def first_per_node_aux (seen : List String) :
    List (TransportNode × CertificateCheck) →
    List (TransportNode × CertificateCheck)
  | [] => []
  | r :: rest =>
    if r.1.id ∈ seen then first_per_node_aux seen rest
    else r :: first_per_node_aux (r.1.id :: seen) rest

/-- The first-wins dict build started with no keys. -/
def first_per_node (rows : List (TransportNode × CertificateCheck)) :
    List (TransportNode × CertificateCheck) :=
  first_per_node_aux [] rows

/-- `node_latest_checks.values()`: per active node, the first row of the
descending order — its most recent successful check. -/
def node_latest_checks (nodes : List TransportNode)
    (checks : List CertificateCheck) :
    List (TransportNode × CertificateCheck) :=
  first_per_node (sorted_success_rows nodes checks)

/-! ## Notification dedup (`telegram_notifier.py` lines 107-193)

The Telegram send is abstracted as a boolean delivery outcome per
notification type; the database session as the explicit list of
`TelegramNotification` rows.  The second component of each result records
whether `send_message` was invoked. -/

/-- The per-candidate dedup query (lines 144-151): does a row for
(node id, type, date) exist. -/
def has_notification (st : List TelegramNotification)
    (nid ntype nd : String) : Bool :=
  st.any (fun t => t.node_id = nid ∧ t.notification_type = ntype ∧
    t.notification_date = nd)

/-- `TelegramNotifier._send_cert_notifications` (lines 131-193): filter
the group down to candidates without a record for today, return unchanged
with no send when none remain; otherwise send, and append one record per
included node only when delivery succeeded (`if sent:`), leaving the
records untouched on delivery failure. -/
def send_cert_notifications (st : List TelegramNotification)
    (nodes_checks : List (TransportNode × CertificateCheck))
    (ntype today : String) (send_ok : Bool) :
    List TelegramNotification × Bool :=
  let to_notify := nodes_checks.filter
    (fun nc => ¬ has_notification st nc.1.id ntype today)
  if to_notify.isEmpty then (st, false)
  else if send_ok then
    (st ++ to_notify.map (fun nc => ⟨nc.1.id, ntype, today⟩), true)
  else (st, true)

/-- One tier step of `check_and_notify_expiring_certs` (lines 110-126):
`_send_cert_notifications` is invoked only when the bucket is non-empty. -/
def notify_tier (st : List TelegramNotification)
    (bucket : List (TransportNode × CertificateCheck))
    (ntype today : String) (ok : Bool) :
    List TelegramNotification × Bool :=
  if bucket.isEmpty then (st, false)
  else send_cert_notifications st bucket ntype today ok

/-- `TelegramNotifier.check_and_notify_expiring_certs` (lines 61-129),
from the already-selected latest checks onward: bucket by severity, then
process the three tiers in order against the evolving record state.
Returns the final record state and the list of types for which a Telegram
send was attempted. -/
def check_and_notify_expiring_certs (st : List TelegramNotification)
    (latest : List (TransportNode × CertificateCheck))
    (warning_days : Int) (today : String) (send_ok : String → Bool) :
    List TelegramNotification × List String :=
  let r1 := notify_tier st (expired_bucket latest) "cert_expired" today
    (send_ok "cert_expired")
  let r2 := notify_tier r1.1 (expiring_very_soon_bucket latest)
    "cert_expiring_7d" today (send_ok "cert_expiring_7d")
  let r3 := notify_tier r2.1 (expiring_soon_bucket warning_days latest)
    "cert_expiring_30d" today (send_ok "cert_expiring_30d")
  (r3.1,
    (if r1.2 then ["cert_expired"] else [])
      ++ (if r2.2 then ["cert_expiring_7d"] else [])
      ++ (if r3.2 then ["cert_expiring_30d"] else []))

/-- The storage-layer natural key of `TelegramNotification`
(`UniqueConstraint('node_id', 'notification_type', 'notification_date')`). -/
def notification_key (t : TelegramNotification) :
    String × String × String :=
  (t.node_id, t.notification_type, t.notification_date)

/-- The uniqueness invariant: at most one record per key. -/
def notif_keys_nodup (st : List TelegramNotification) : Prop :=
  (st.map notification_key).Nodup

/-! ## Theorems -/

theorem ediv_ediv_eq (a : Int) {b c : Int} (hb : 0 < b) (hc : 0 < c) :
    a / b / c = a / (b * c) := by
  have hbc : 0 < b * c := Int.mul_pos hb hc
  apply le_antisymm
  · rw [Int.le_ediv_iff_mul_le hbc,
      show a / b / c * (b * c) = a / b / c * c * b by ring,
      ← Int.le_ediv_iff_mul_le hb, ← Int.le_ediv_iff_mul_le hc]
  · rw [Int.le_ediv_iff_mul_le hc, Int.le_ediv_iff_mul_le hb,
      show a / (b * c) * c * b = a / (b * c) * (b * c) by ring,
      ← Int.le_ediv_iff_mul_le hbc]

/-- The `days` field of the normalized difference is floor division of the
raw microsecond total by the number of microseconds in a day. -/
theorem py_timedelta_days_eq_fdiv (total : Int) :
    (py_timedelta_of_usec total).days = total.fdiv USEC_PER_DAY := by
  show (total.fdiv USEC_PER_SEC).fdiv SEC_PER_DAY = total.fdiv USEC_PER_DAY
  rw [Int.fdiv_eq_ediv _ (show (0:Int) ≤ USEC_PER_SEC by decide),
    Int.fdiv_eq_ediv _ (show (0:Int) ≤ SEC_PER_DAY by decide),
    Int.fdiv_eq_ediv _ (show (0:Int) ≤ USEC_PER_DAY by decide)]
  have h := ediv_ediv_eq total (b := USEC_PER_SEC) (c := SEC_PER_DAY)
    (by decide) (by decide)
  rw [h]
  have : USEC_PER_SEC * SEC_PER_DAY = USEC_PER_DAY := by decide
  rw [this]

theorem fdiv_day_lower (delta : Int) :
    USEC_PER_DAY * delta.fdiv USEC_PER_DAY ≤ delta := by
  rw [Int.fdiv_eq_ediv _ (show (0:Int) ≤ USEC_PER_DAY by decide)]
  have h := Int.ediv_add_emod delta USEC_PER_DAY
  have h2 := Int.emod_nonneg delta (show USEC_PER_DAY ≠ 0 by decide)
  omega

theorem fdiv_day_upper (delta : Int) :
    delta < USEC_PER_DAY * (delta.fdiv USEC_PER_DAY + 1) := by
  rw [Int.fdiv_eq_ediv _ (show (0:Int) ≤ USEC_PER_DAY by decide)]
  have h := Int.ediv_add_emod delta USEC_PER_DAY
  have h2 := Int.emod_lt_of_pos delta (show 0 < USEC_PER_DAY by decide)
  have h3 : USEC_PER_DAY * (delta / USEC_PER_DAY + 1) =
      USEC_PER_DAY * (delta / USEC_PER_DAY) + USEC_PER_DAY := by ring
  omega

theorem mem_expired_bucket (latest : List (TransportNode × CertificateCheck))
    (nc : TransportNode × CertificateCheck) (w : Int) :
    nc ∈ expired_bucket latest ↔
      nc ∈ latest ∧ classify_days w nc.2.days_remaining = some "cert_expired" := by
  simp only [expired_bucket, List.mem_filter, classify_days, decide_eq_true_eq]
  by_cases h0 : nc.2.days_remaining ≤ 0
  · simp [h0]
  · by_cases h7 : nc.2.days_remaining ≤ 7 <;> by_cases hw : nc.2.days_remaining ≤ w <;>
      simp [h0, h7, hw]

theorem mem_expiring_very_soon_bucket
    (latest : List (TransportNode × CertificateCheck))
    (nc : TransportNode × CertificateCheck) (w : Int) :
    nc ∈ expiring_very_soon_bucket latest ↔
      nc ∈ latest ∧ classify_days w nc.2.days_remaining = some "cert_expiring_7d" := by
  simp only [expiring_very_soon_bucket, List.mem_filter, classify_days,
    decide_eq_true_eq]
  by_cases h0 : nc.2.days_remaining ≤ 0
  · simp [h0]
  · by_cases h7 : nc.2.days_remaining ≤ 7 <;> by_cases hw : nc.2.days_remaining ≤ w <;>
      simp [h0, h7, hw]

theorem mem_expiring_soon_bucket (w : Int)
    (latest : List (TransportNode × CertificateCheck))
    (nc : TransportNode × CertificateCheck) :
    nc ∈ expiring_soon_bucket w latest ↔
      nc ∈ latest ∧ classify_days w nc.2.days_remaining = some "cert_expiring_30d" := by
  simp only [expiring_soon_bucket, List.mem_filter, classify_days,
    decide_eq_true_eq]
  by_cases h0 : nc.2.days_remaining ≤ 0
  · simp [h0]
  · by_cases h7 : nc.2.days_remaining ≤ 7 <;> by_cases hw : nc.2.days_remaining ≤ w <;>
      simp [h0, h7, hw]

/-- C3: severity classification is the first-match `if/elif` ladder:
days-remaining 0 is `expired` (not `critical`); 7 is `critical` (not
`warning`); 30 is `warning` at threshold 30 and no tier at threshold 20;
any value strictly above a threshold of at least 7 gets no tier, hence no
notification. -/
theorem C3_severity_precedence :
    classify_days 30 0 = some "cert_expired" ∧
    classify_days 30 7 = some "cert_expiring_7d" ∧
    classify_days 30 30 = some "cert_expiring_30d" ∧
    classify_days 20 30 = none ∧
    (∀ w d : Int, 7 ≤ w → w < d → classify_days w d = none) ∧
    (∀ (w : Int) (latest : List (TransportNode × CertificateCheck)) nc,
      (nc ∈ expired_bucket latest ↔ nc ∈ latest ∧
        classify_days w nc.2.days_remaining = some "cert_expired") ∧
      (nc ∈ expiring_very_soon_bucket latest ↔ nc ∈ latest ∧
        classify_days w nc.2.days_remaining = some "cert_expiring_7d") ∧
      (nc ∈ expiring_soon_bucket w latest ↔ nc ∈ latest ∧
        classify_days w nc.2.days_remaining = some "cert_expiring_30d")) := by
  refine ⟨by decide, by decide, by decide, by decide, ?_,
    fun w latest nc => ⟨mem_expired_bucket latest nc w,
      mem_expiring_very_soon_bucket latest nc w,
      mem_expiring_soon_bucket w latest nc⟩⟩
  intro w d hw hd
  unfold classify_days
  have h0 : ¬ d ≤ 0 := by omega
  have h7 : ¬ d ≤ 7 := by omega
  have hwd : ¬ d ≤ w := by omega
  simp [h0, h7, hwd]

/-- Witness for C3 at concrete inputs: threshold 30, 31 days remaining. -/
theorem C3_severity_precedence_witness :
    classify_days 30 31 = none :=
  C3_severity_precedence.2.2.2.2.1 30 31 (by decide) (by decide)

theorem parse_cert_date_sample_gmt :
    parse_cert_date "notAfter=Dec 31 23:59:59 2025 GMT" =
      some ⟨2025, 12, 31, 23, 59, 59⟩ := by decide

theorem parse_cert_date_sample_invalid_day :
    parse_cert_date "Feb 29 00:00:00 2025" = none := by decide

theorem parse_cert_date_sample_leap :
    parse_cert_date "Feb 29 00:00:00 2024" =
      some ⟨2024, 2, 29, 0, 0, 0⟩ := by decide

theorem parse_cert_date_sample_whitespace :
    parse_cert_date "  Jan  2 3:4:5 1999  " =
      some ⟨1999, 1, 2, 3, 4, 5⟩ := by decide

/-! ### Character classes and token-run decomposition -/

theorem space_not_digit {c : Char} (h : isPySpace c = true) : c.isDigit = false := by
  simp only [isPySpace, Bool.or_eq_true, beq_iff_eq] at h
  rcases h with ((((h | h) | h) | h) | h) | h <;> subst h <;> decide

theorem digit_not_space {c : Char} (h : c.isDigit = true) : isPySpace c = false := by
  cases hs : isPySpace c
  · rfl
  · rw [space_not_digit hs] at h
    cases h

theorem takeWhile_append_run (p : Char → Bool) {l1 l2 : List Char}
    (h1 : ∀ c ∈ l1, p c = true)
    (h2 : ∀ c, l2.head? = some c → p c = false) :
    (l1 ++ l2).takeWhile p = l1 ∧ (l1 ++ l2).dropWhile p = l2 := by
  induction l1 with
  | nil =>
    simp only [List.nil_append]
    cases l2 with
    | nil => simp
    | cons c cs =>
      have hc := h2 c rfl
      simp [List.takeWhile_cons, List.dropWhile_cons, hc]
  | cons a l ih =>
    have ha : p a = true := h1 a (List.mem_cons_self a l)
    have ih' := ih (fun c hc => h1 c (List.mem_cons_of_mem a hc))
    simp [List.takeWhile_cons, List.dropWhile_cons, ha, ih'.1, ih'.2]

theorem head_not_space_of_digits {ds rest : List Char} (h1 : ds ≠ [])
    (hd : ∀ c ∈ ds, c.isDigit = true) :
    ∀ c, (ds ++ rest).head? = some c → isPySpace c = false := by
  cases ds with
  | nil => exact absurd rfl h1
  | cons a t =>
    intro c hc
    simp only [List.cons_append, List.head?_cons, Option.some.injEq] at hc
    subst hc
    exact digit_not_space (hd a (List.mem_cons_self a t))

theorem head_not_digit_of_spaces {ws rest : List Char} (h1 : ws ≠ [])
    (hw : ∀ c ∈ ws, isPySpace c = true) :
    ∀ c, (ws ++ rest).head? = some c → c.isDigit = false := by
  cases ws with
  | nil => exact absurd rfl h1
  | cons a t =>
    intro c hc
    simp only [List.cons_append, List.head?_cons, Option.some.injEq] at hc
    subst hc
    exact space_not_digit (hw a (List.mem_cons_self a t))

theorem head_not_space_of_digits2 {ds : List Char} (h1 : ds ≠ [])
    (hd : ∀ c ∈ ds, c.isDigit = true) :
    ∀ c, ds.head? = some c → isPySpace c = false := by
  cases ds with
  | nil => exact absurd rfl h1
  | cons a t =>
    intro c hc
    simp only [List.head?_cons, Option.some.injEq] at hc
    subst hc
    exact digit_not_space (hd a (List.mem_cons_self a t))

theorem head_not_digit_of_colon {rest : List Char} :
    ∀ c, (':' :: rest).head? = some c → c.isDigit = false := by
  intro c hc
  simp only [List.head?_cons, Option.some.injEq] at hc
  subst hc
  decide

/-! ### Sub-parser characterizations -/

theorem parse_space_complete {l1 l2 : List Char} (h1 : l1 ≠ [])
    (hsp : ∀ c ∈ l1, isPySpace c = true)
    (h2 : ∀ c, l2.head? = some c → isPySpace c = false) :
    parse_space (l1 ++ l2) = some l2 := by
  obtain ⟨ht, hd⟩ := takeWhile_append_run isPySpace hsp h2
  simp [parse_space, ht, hd, h1]

theorem parse_space_sound {cs r : List Char} (h : parse_space cs = some r) :
    ∃ l1, cs = l1 ++ r ∧ l1 ≠ [] ∧ ∀ c ∈ l1, isPySpace c = true := by
  unfold parse_space at h
  by_cases he : (cs.takeWhile isPySpace).isEmpty
  · rw [if_pos he] at h
    cases h
  · rw [if_neg he, Option.some.injEq] at h
    refine ⟨cs.takeWhile isPySpace, ?_, by simpa using he,
      fun c hc => List.mem_takeWhile_imp hc⟩
    rw [← h]
    exact (List.takeWhile_append_dropWhile isPySpace cs).symm

theorem parse_num2_complete {lo hi : Nat} {ds r : List Char}
    (h1 : ds ≠ []) (hd : ∀ c ∈ ds, c.isDigit = true) (hlen : ds.length ≤ 2)
    (hlo : lo ≤ digits_val ds) (hhi : digits_val ds ≤ hi)
    (hr : ∀ c, r.head? = some c → c.isDigit = false) :
    parse_num2 lo hi (ds ++ r) = some (digits_val ds, r) := by
  obtain ⟨ht, hdw⟩ := takeWhile_append_run Char.isDigit hd hr
  simp [parse_num2, ht, hdw, h1, show ¬ 2 < ds.length by omega,
    show ¬ digits_val ds < lo by omega, show ¬ hi < digits_val ds by omega]

theorem parse_num2_sound {lo hi v : Nat} {cs r : List Char}
    (h : parse_num2 lo hi cs = some (v, r)) :
    ∃ ds, cs = ds ++ r ∧ ds ≠ [] ∧ (∀ c ∈ ds, c.isDigit = true) ∧
      ds.length ≤ 2 ∧ digits_val ds = v ∧ lo ≤ v ∧ v ≤ hi := by
  unfold parse_num2 at h
  by_cases h1 : (cs.takeWhile Char.isDigit).isEmpty
  · rw [if_pos h1] at h
    cases h
  rw [if_neg h1] at h
  by_cases h2 : 2 < (cs.takeWhile Char.isDigit).length
  · rw [if_pos h2] at h
    cases h
  rw [if_neg h2] at h
  by_cases h3 : digits_val (cs.takeWhile Char.isDigit) < lo
  · rw [if_pos h3] at h
    cases h
  rw [if_neg h3] at h
  by_cases h4 : hi < digits_val (cs.takeWhile Char.isDigit)
  · rw [if_pos h4] at h
    cases h
  rw [if_neg h4, Option.some.injEq, Prod.mk.injEq] at h
  obtain ⟨hv, hr⟩ := h
  refine ⟨cs.takeWhile Char.isDigit, ?_, by simpa using h1,
    fun c hc => List.mem_takeWhile_imp hc, by omega, hv, by omega, by omega⟩
  rw [← hr]
  exact (List.takeWhile_append_dropWhile Char.isDigit cs).symm

theorem parse_year_complete {ds r : List Char}
    (hd : ∀ c ∈ ds, c.isDigit = true) (hlen : ds.length = 4)
    (hv : digits_val ds ≠ 0)
    (hr : ∀ c, r.head? = some c → c.isDigit = false) :
    parse_year (ds ++ r) = some (digits_val ds, r) := by
  obtain ⟨ht, hdw⟩ := takeWhile_append_run Char.isDigit hd hr
  simp [parse_year, ht, hdw, hlen, hv]

theorem parse_year_sound {cs r : List Char} {v : Nat}
    (h : parse_year cs = some (v, r)) :
    ∃ ds, cs = ds ++ r ∧ (∀ c ∈ ds, c.isDigit = true) ∧
      ds.length = 4 ∧ digits_val ds = v ∧ v ≠ 0 := by
  unfold parse_year at h
  by_cases h1 : (cs.takeWhile Char.isDigit).length = 4
  · rw [if_pos h1] at h
    by_cases h2 : digits_val (cs.takeWhile Char.isDigit) = 0
    · rw [if_pos h2] at h
      cases h
    · rw [if_neg h2, Option.some.injEq, Prod.mk.injEq] at h
      obtain ⟨hv, hr⟩ := h
      refine ⟨cs.takeWhile Char.isDigit, ?_,
        fun c hc => List.mem_takeWhile_imp hc, h1, hv, by omega⟩
      rw [← hr]
      exact (List.takeWhile_append_dropWhile Char.isDigit cs).symm
  · rw [if_neg h1] at h
    cases h

theorem parse_colon_sound {cs r : List Char} (h : parse_colon cs = some r) :
    cs = ':' :: r := by
  unfold parse_colon at h
  by_cases hh : cs.head? = some ':'
  · rw [if_pos hh, Option.some.injEq] at h
    cases cs with
    | nil => simp at hh
    | cons a t =>
      simp only [List.head?_cons, Option.some.injEq] at hh
      subst hh
      simp only [List.tail_cons] at h
      rw [h]
  · rw [if_neg hh] at h
    cases h

theorem month_from_abbrev_length {l : List Char} {m : Nat}
    (h : month_from_abbrev l = some m) : l.length = 3 := by
  by_contra hne
  have hno : ∀ s : List Char, s.length = 3 → l ≠ s :=
    fun s hs he => hne (by rw [he, hs])
  unfold month_from_abbrev at h
  rw [if_neg (hno _ (by decide)), if_neg (hno _ (by decide)),
    if_neg (hno _ (by decide)), if_neg (hno _ (by decide)),
    if_neg (hno _ (by decide)), if_neg (hno _ (by decide)),
    if_neg (hno _ (by decide)), if_neg (hno _ (by decide)),
    if_neg (hno _ (by decide)), if_neg (hno _ (by decide)),
    if_neg (hno _ (by decide)), if_neg (hno _ (by decide))] at h
  cases h

theorem parse_num2_sound2 {lo hi : Nat} {cs : List Char} {p : Nat × List Char}
    (h : parse_num2 lo hi cs = some p) :
    ∃ ds, cs = ds ++ p.2 ∧ ds ≠ [] ∧ (∀ c ∈ ds, c.isDigit = true) ∧
      ds.length ≤ 2 ∧ digits_val ds = p.1 ∧ lo ≤ p.1 ∧ p.1 ≤ hi := by
  obtain ⟨v, r⟩ := p
  exact parse_num2_sound h

theorem parse_year_sound2 {cs : List Char} {p : Nat × List Char}
    (h : parse_year cs = some p) :
    ∃ ds, cs = ds ++ p.2 ∧ (∀ c ∈ ds, c.isDigit = true) ∧
      ds.length = 4 ∧ digits_val ds = p.1 ∧ p.1 ≠ 0 := by
  obtain ⟨v, r⟩ := p
  exact parse_year_sound h

theorem parse_colon_cons (r : List Char) : parse_colon (':' :: r) = some r := by
  simp [parse_colon]

theorem strptime_sound {cs : List Char} {dt : PyDatetime}
    (h : strptime_b_d_HMS_Y cs = some dt) : cert_format_matches cs dt := by
  simp only [strptime_b_d_HMS_Y, Option.bind_eq_some] at h
  obtain ⟨mon, hmon, r1, hr1, dp, hdp, r3, hr3, hp, hhp, r5, hr5, mp, hmp,
    r7, hr7, sq, hsq, r9, hr9, yp, hyp, hfin⟩ := h
  by_cases hemp : yp.2.isEmpty
  swap
  · rw [if_neg hemp] at hfin
    cases hfin
  rw [if_pos hemp] at hfin
  by_cases hday : dp.1 ≤ days_in_month yp.1 mon
  swap
  · rw [if_neg hday] at hfin
    cases hfin
  rw [if_pos hday, Option.some.injEq] at hfin
  subst hfin
  obtain ⟨w1, e1, hw1ne, hw1⟩ := parse_space_sound hr1
  obtain ⟨dTok, e2, hdne, hddig, hdlen, hdval, hdlo, hdhi⟩ := parse_num2_sound2 hdp
  obtain ⟨w2, e3, hw2ne, hw2⟩ := parse_space_sound hr3
  obtain ⟨hTok, e4, hhne, hhdig, hhlen, hhval, hhlo, hhhi⟩ := parse_num2_sound2 hhp
  have e5 := parse_colon_sound hr5
  obtain ⟨mTok, e6, hmne, hmdig, hmlen, hmval, hmlo, hmhi⟩ := parse_num2_sound2 hmp
  have e7 := parse_colon_sound hr7
  obtain ⟨sTok, e8, hsne, hsdig, hslen, hsval, hslo, hshi⟩ := parse_num2_sound2 hsq
  obtain ⟨w3, e9, hw3ne, hw3⟩ := parse_space_sound hr9
  obtain ⟨yTok, e10, hydig, hylen, hyval, hynz⟩ := parse_year_sound2 hyp
  have hempnil : yp.2 = [] := by simpa using hemp
  rw [hempnil, List.append_nil] at e10
  refine ⟨cs.take 3, w1, dTok, w2, hTok, mTok, sTok, w3, yTok, ?_, hmon,
    hw1ne, hw1, hdne, hddig, hdlen, hdval, hdlo, hdhi, hw2ne, hw2,
    hhne, hhdig, hhlen, hhval, hhhi, hmne, hmdig, hmlen, hmval, hmhi,
    hsne, hsdig, hslen, hsval, hshi, hw3ne, hw3,
    hydig, hylen, hyval, hynz, hday⟩
  have hsplit : cs = cs.take 3 ++ (w1 ++ (dTok ++ (w2 ++ (hTok ++
      (':' :: (mTok ++ (':' :: (sTok ++ (w3 ++ yTok))))))))) := by
    calc cs = cs.take 3 ++ cs.drop 3 := (List.take_append_drop 3 cs).symm
      _ = cs.take 3 ++ (w1 ++ (dTok ++ (w2 ++ (hTok ++
          (':' :: (mTok ++ (':' :: (sTok ++ (w3 ++ yTok))))))))) := by
        rw [e1, e2, e3, e4, e5, e6, e7, e8, e9, e10]
  exact hsplit.trans (by simp [List.append_assoc])

theorem strptime_complete {cs : List Char} {dt : PyDatetime}
    (h : cert_format_matches cs dt) : strptime_b_d_HMS_Y cs = some dt := by
  obtain ⟨y, mo, d, hh, mi, s⟩ := dt
  obtain ⟨mon, w1, dTok, w2, hTok, mTok, sTok, w3, yTok, hcs, hmon,
    hw1ne, hw1, hdne, hddig, hdlen, hdval, hdlo, hdhi, hw2ne, hw2,
    hhne, hhdig, hhlen, hhval, hhhi, hmne, hmdig, hmlen, hmval, hmhi,
    hsne, hsdig, hslen, hsval, hshi, hw3ne, hw3,
    hydig, hylen, hyval, hynz, hday⟩ := h
  have hmlen3 : mon.length = 3 := by
    have hl := month_from_abbrev_length hmon
    simpa using hl
  have hyne : yTok ≠ [] := by
    intro hy
    rw [hy] at hylen
    cases hylen
  have hy := parse_year_complete hydig hylen
    (by simpa [hyval] using hynz) (r := [])
    (fun c hc => by simp at hc)
  rw [List.append_nil] at hy
  have hcs2 : cs = mon ++ (w1 ++ (dTok ++ (w2 ++ (hTok ++
      (':' :: (mTok ++ (':' :: (sTok ++ (w3 ++ yTok))))))))) := by
    rw [hcs]
    simp [List.append_assoc]
  rw [hcs2]
  unfold strptime_b_d_HMS_Y
  rw [List.take_left' hmlen3, List.drop_left' hmlen3, hmon]
  simp only [Option.some_bind]
  rw [parse_space_complete hw1ne hw1 (head_not_space_of_digits hdne hddig)]
  simp only [Option.some_bind]
  rw [parse_num2_complete hdne hddig hdlen (by omega) (by omega)
    (head_not_digit_of_spaces hw2ne hw2)]
  simp only [Option.some_bind]
  rw [parse_space_complete hw2ne hw2 (head_not_space_of_digits hhne hhdig)]
  simp only [Option.some_bind]
  rw [parse_num2_complete hhne hhdig hhlen (by omega) (by omega)
    head_not_digit_of_colon]
  simp only [Option.some_bind]
  rw [parse_colon_cons]
  simp only [Option.some_bind]
  rw [parse_num2_complete hmne hmdig hmlen (by omega) (by omega)
    head_not_digit_of_colon]
  simp only [Option.some_bind]
  rw [parse_colon_cons]
  simp only [Option.some_bind]
  rw [parse_num2_complete hsne hsdig hslen (by omega) (by omega)
    (head_not_digit_of_spaces hw3ne hw3)]
  simp only [Option.some_bind]
  rw [parse_space_complete hw3ne hw3 (head_not_space_of_digits2 hyne hydig)]
  simp only [Option.some_bind]
  rw [hy]
  simp only [Option.some_bind]
  simp [hdval, hhval, hmval, hsval, hyval, hday]

/-- The parser agrees exactly with the declarative grammar. -/
theorem strptime_iff_matches (cs : List Char) (dt : PyDatetime) :
    strptime_b_d_HMS_Y cs = some dt ↔ cert_format_matches cs dt :=
  ⟨strptime_sound, strptime_complete⟩

/-- C10 counterexample: the claim reads the normalization as stripping a
`"notAfter="` *prefix*; the code instead takes Python
`split("notAfter=")[1]`, the segment after the first occurrence of the
separator anywhere in the string.  On
`"xnotAfter=Dec 31 23:59:59 2025 GMT"` the separator is not a prefix, so
under the claim's reading nothing is stripped and the string cannot match
the format (the claim predicts `None`), yet the code parses the segment
after the separator and returns a datetime. -/
theorem C10_parse_cert_date_counterexample :
    parse_cert_date "xnotAfter=Dec 31 23:59:59 2025 GMT" =
      some ⟨2025, 12, 31, 23, 59, 59⟩ ∧
    claim_parse_cert_date "xnotAfter=Dec 31 23:59:59 2025 GMT" = none := by
  exact ⟨by decide, by decide⟩

/-- C10 (amended): the parser is total (embedded as a total function into
`Option`, all exceptions being caught) and returns a datetime exactly when
the string — after taking the segment between the first occurrence of
`"notAfter="` and any next occurrence (the whole string when the separator
is absent), stripping surrounding whitespace, and dropping an optional
trailing `" GMT"` with re-stripping — matches the fixed format
`"%b %d %H:%M:%S %Y"` denoting a valid calendar date; `None` otherwise. -/
theorem C10_parse_cert_date_iff (s : String) (dt : PyDatetime) :
    parse_cert_date s = some dt ↔
      cert_format_matches (cert_date_normalize s.data) dt :=
  strptime_iff_matches (cert_date_normalize s.data) dt

/-- Witness for C10 at a concrete input. -/
theorem C10_parse_cert_date_iff_witness :
    cert_format_matches
      (cert_date_normalize "notAfter=Dec 31 23:59:59 2025 GMT".data)
      ⟨2025, 12, 31, 23, 59, 59⟩ :=
  (C10_parse_cert_date_iff "notAfter=Dec 31 23:59:59 2025 GMT"
    ⟨2025, 12, 31, 23, 59, 59⟩).mp (by decide)

/-- C5: every probe invocation yields a typed record (no exception escapes:
the embedding is total in the outcome environment): the status is exactly
one of success / error / ssh_failed / timeout; session failures map to
`ssh_failed`, exceeded time bounds to `timeout`, non-zero command exit and
unparseable output to `error`; and every non-success record carries an
error message. -/
theorem C5_check_certificate_typed (now timeout : Int) (host node_id : String) :
    (∀ env : SshEnv,
      ((check_certificate env now timeout host node_id).status = "success" ∨
       (check_certificate env now timeout host node_id).status = "error" ∨
       (check_certificate env now timeout host node_id).status = "ssh_failed" ∨
       (check_certificate env now timeout host node_id).status = "timeout") ∧
      ((check_certificate env now timeout host node_id).status ≠ "success" →
        (check_certificate env now timeout host node_id).error_message ≠ none)) ∧
    (∀ msg, (check_certificate (.connSshError msg) now timeout host
      node_id).status = "ssh_failed") ∧
    (∀ msg, (check_certificate (.connected (.raisesSsh msg)) now timeout host
      node_id).status = "ssh_failed") ∧
    (check_certificate .connTimeout now timeout host node_id).status
      = "timeout" ∧
    (check_certificate (.connected .raisesTimeout) now timeout host
      node_id).status = "timeout" ∧
    (∀ e out err, e ≠ 0 →
      (check_certificate (.connected (.done e out err)) now timeout host
        node_id).status = "error") ∧
    (∀ out err, parse_cert_date (String.mk (py_strip out.data)) = none →
      (check_certificate (.connected (.done 0 out err)) now timeout host
        node_id).status = "error") := by
  refine ⟨?_, fun msg => by simp [check_certificate],
    fun msg => by simp [check_certificate], by simp [check_certificate],
    by simp [check_certificate], fun e out err he => by simp [check_certificate, he],
    fun out err hp => by simp [check_certificate, hp]⟩
  intro env
  cases env with
  | connSshError m => simp [check_certificate]
  | connTimeout => simp [check_certificate]
  | connOther m => simp [check_certificate]
  | connected cmd =>
    cases cmd with
    | raisesSsh m => simp [check_certificate]
    | raisesTimeout => simp [check_certificate]
    | raisesOther m => simp [check_certificate]
    | done e out err =>
      by_cases he : e ≠ 0
      · simp [check_certificate, he]
      · cases hp : parse_cert_date (String.mk (py_strip out.data)) with
        | none => simp [check_certificate, he, hp]
        | some d => simp [check_certificate, he, hp]

/-- Witness for C5 at a concrete environment: non-zero command exit. -/
theorem C5_check_certificate_typed_witness :
    (check_certificate (SshEnv.connected (CmdOutcome.done 1 "" "oops"))
      0 30 "10.0.0.5" "n1").status = "error" :=
  (C5_check_certificate_typed 0 30 "10.0.0.5" "n1").2.2.2.2.2.1 1 "" "oops"
    (by decide)

/-- C6: on the success path, days-remaining is the floor of
(expiry − now) in whole days: it is bracketed by the floor inequalities;
a positive remainder below one day yields exactly 0 with status success
(never rounded up); an already-expired certificate (expiry before now)
yields a strictly negative days-remaining, still with status success. -/
theorem C6_days_remaining_floor (now timeout : Int) (host node_id : String)
    (out err : String) (expiry : PyDatetime)
    (hp : parse_cert_date (String.mk (py_strip out.data)) = some expiry) :
    (check_certificate (.connected (.done 0 out err)) now timeout host
      node_id).status = "success" ∧
    (check_certificate (.connected (.done 0 out err)) now timeout host
      node_id).days_remaining =
      some ((py_datetime_to_usec expiry - now).fdiv USEC_PER_DAY) ∧
    USEC_PER_DAY * ((py_datetime_to_usec expiry - now).fdiv USEC_PER_DAY) ≤
      py_datetime_to_usec expiry - now ∧
    py_datetime_to_usec expiry - now <
      USEC_PER_DAY * ((py_datetime_to_usec expiry - now).fdiv USEC_PER_DAY + 1) ∧
    (0 < py_datetime_to_usec expiry - now →
      py_datetime_to_usec expiry - now < USEC_PER_DAY →
      (py_datetime_to_usec expiry - now).fdiv USEC_PER_DAY = 0) ∧
    (py_datetime_to_usec expiry - now < 0 →
      (py_datetime_to_usec expiry - now).fdiv USEC_PER_DAY < 0) := by
  have hd := py_timedelta_days_eq_fdiv (py_datetime_to_usec expiry - now)
  refine ⟨by simp [check_certificate, hp],
    by simp [check_certificate, hp, hd],
    fdiv_day_lower _, fdiv_day_upper _, ?_, ?_⟩
  · intro h1 h2
    rw [Int.fdiv_eq_ediv _ (show (0:Int) ≤ USEC_PER_DAY by decide)]
    exact Int.ediv_eq_zero_of_lt (le_of_lt h1) h2
  · intro h1
    exact Int.fdiv_neg' h1 (by decide)

/-- Witness for C6: a certificate expiring 1000 microseconds from `now`
reports success with days-remaining 0. -/
theorem C6_days_remaining_floor_witness :
    (check_certificate
      (SshEnv.connected
        (CmdOutcome.done 0 "notAfter=Jan  1 00:00:00 2026 GMT" ""))
      (py_datetime_to_usec ⟨2026, 1, 1, 0, 0, 0⟩ - 1000) 30 "h" "n"
      ).days_remaining = some 0 := by
  have h := C6_days_remaining_floor
    (py_datetime_to_usec ⟨2026, 1, 1, 0, 0, 0⟩ - 1000) 30 "h" "n"
    "notAfter=Jan  1 00:00:00 2026 GMT" "" ⟨2026, 1, 1, 0, 0, 0⟩ (by decide)
  rw [h.2.1, h.2.2.2.2.1 (by decide) (by decide)]

/-- C4: the orchestrator returns exactly one result per input pair,
positionally; a probe's own result is passed through unchanged; a raised
fault in one slot becomes an `error` record carrying the fault description
for that slot's host; and changing the outcome of one target never changes
any other target's result.  The batch is a total function of the outcomes
(the gather point converts exceptions instead of raising). -/
theorem C4_fanout_isolation (outcome : HostInfo → ProbeOutcome)
    (hosts : List HostInfo) :
    (check_multiple_certificates outcome hosts).length = hosts.length ∧
    (∀ i : Nat, (check_multiple_certificates outcome hosts)[i]? =
      (hosts[i]?).map (gather_slot outcome)) ∧
    (∀ h r, outcome h = ProbeOutcome.res r → gather_slot outcome h = r) ∧
    (∀ h m, outcome h = ProbeOutcome.exc m →
      (gather_slot outcome h).status = "error" ∧
      (gather_slot outcome h).error_message =
        some ("Unhandled exception: " ++ m) ∧
      (gather_slot outcome h).node_id = h.node_id ∧
      (gather_slot outcome h).host = h.host) ∧
    (∀ outcome2 : HostInfo → ProbeOutcome, ∀ g : HostInfo,
      (∀ h, h ≠ g → outcome h = outcome2 h) →
      ∀ i : Nat, ∀ hI, hosts[i]? = some hI → hI ≠ g →
        (check_multiple_certificates outcome hosts)[i]? =
        (check_multiple_certificates outcome2 hosts)[i]?) := by
  refine ⟨List.length_map hosts _,
    fun i => List.getElem?_map (gather_slot outcome) hosts i, ?_, ?_, ?_⟩
  · intro h r hr
    simp [gather_slot, hr]
  · intro h m hm
    simp [gather_slot, hm]
  · intro o2 g hfg i hI hsome hne
    simp only [check_multiple_certificates, List.getElem?_map, hsome,
      Option.map_some]
    have : outcome hI = o2 hI := hfg hI hne
    simp [gather_slot, this]

/-- Witness for C4: the spec's five-target scenario (slot 3 times out, the
rest succeed) produces exactly five results, and a raised fault becomes an
error record. -/
theorem C4_fanout_isolation_witness :
    (check_multiple_certificates
      (fun h => if h.node_id = "n3"
        then ProbeOutcome.res
          { node_id := h.node_id, host := h.host, status := "timeout",
            cert_expiry_date := none, days_remaining := none,
            error_message := some "Connection timeout after 30s" }
        else ProbeOutcome.res
          { node_id := h.node_id, host := h.host, status := "success",
            cert_expiry_date := some ⟨2026, 1, 1, 0, 0, 0⟩,
            days_remaining := some 80, error_message := none })
      [⟨"10.0.0.1", "n1"⟩, ⟨"10.0.0.2", "n2"⟩, ⟨"10.0.0.3", "n3"⟩,
       ⟨"10.0.0.4", "n4"⟩, ⟨"10.0.0.5", "n5"⟩]).length = 5 ∧
    (gather_slot (fun _ => ProbeOutcome.exc "boom")
      ⟨"10.0.0.9", "n9"⟩).status = "error" :=
  ⟨(C4_fanout_isolation _ _).1.trans (by decide),
   ((C4_fanout_isolation (fun _ => ProbeOutcome.exc "boom") []).2.2.2.1
     ⟨"10.0.0.9", "n9"⟩ "boom" rfl).1⟩

theorem snapshot_events_filter_added (existing : List TransportNode)
    (snap : List NSXNode) :
    (snapshot_events existing snap).filter
        (fun e => e.event_type = "added") =
      (snap.filter (is_new_in existing)).map added_event := by
  induction snap with
  | nil => rfl
  | cons s rest ih =>
    simp only [snapshot_events, List.filter_append, ih, List.filter_cons]
    cases hf : find_node existing s.node_id with
    | none => simp [is_new_in, hf, added_event]
    | some e =>
      by_cases ha : e.is_active = true
      · simp [is_new_in, hf, ha]
      · simp only [Bool.not_eq_true] at ha
        simp [is_new_in, hf, ha, reappeared_event]

theorem snapshot_events_filter_reappeared (existing : List TransportNode)
    (snap : List NSXNode) :
    (snapshot_events existing snap).filter
        (fun e => e.event_type = "reappeared") =
      (snap.filter (is_reappeared_in existing)).map reappeared_event := by
  induction snap with
  | nil => rfl
  | cons s rest ih =>
    simp only [snapshot_events, List.filter_append, ih, List.filter_cons]
    cases hf : find_node existing s.node_id with
    | none => simp [is_reappeared_in, hf, added_event]
    | some e =>
      by_cases ha : e.is_active = true
      · simp [is_reappeared_in, hf, ha]
      · simp only [Bool.not_eq_true] at ha
        simp [is_reappeared_in, hf, ha, reappeared_event]

theorem snapshot_events_types (existing : List TransportNode)
    (snap : List NSXNode) :
    ∀ e ∈ snapshot_events existing snap,
      e.event_type = "added" ∨ e.event_type = "reappeared" := by
  induction snap with
  | nil => intro e he; cases he
  | cons s rest ih =>
    intro e he
    simp only [snapshot_events, List.mem_append] at he
    rcases he with he | he
    · cases hf : find_node existing s.node_id with
      | none =>
        simp only [hf, List.mem_singleton] at he
        subst he
        exact Or.inl rfl
      | some ex =>
        by_cases ha : ex.is_active = true
        · simp [hf, ha] at he
        · simp only [Bool.not_eq_true] at ha
          simp only [hf, ha, Bool.false_eq_true, if_false,
            List.mem_singleton] at he
          subst he
          exact Or.inr rfl
    · exact ih e he

theorem removed_events_types (existing : List TransportNode)
    (snapIds : List String) :
    ∀ e ∈ removed_events existing snapIds, e.event_type = "removed" := by
  intro e he
  simp only [removed_events, List.mem_map] at he
  obtain ⟨n, hn, rfl⟩ := he
  rfl

theorem find_by_id_eq {snapshot : List NSXNode}
    (hnd : (snapshot.map (fun s => s.node_id)).Nodup)
    {s : NSXNode} (hs : s ∈ snapshot) {nid : String}
    (hid : s.node_id = nid) :
    snapshot.find? (fun s2 => s2.node_id = nid) = some s := by
  induction snapshot with
  | nil => cases hs
  | cons a rest ih =>
    simp only [List.map_cons, List.nodup_cons] at hnd
    rcases List.mem_cons.mp hs with rfl | hmem
    · simp [List.find?_cons, hid]
    · have hane : ¬ (a.node_id = nid) := by
        intro he
        exact hnd.1 (by
          rw [he, ← hid]
          exact List.mem_map_of_mem (fun s2 => s2.node_id) hmem)
      rw [List.find?_cons_of_neg _ (by simpa using hane)]
      exact ih hnd.2 hmem

/-- C2 counterexample: for the empty snapshot the guard
`if not nsx_nodes: return` exits before any diffing, so a persisted active
node is neither deactivated nor given a `removed` event, although the
claim — quantified over every snapshot — requires exactly one `removed`
event and an `active=false` flip for it. -/
theorem C2_reconciliation_counterexample :
    sync_nsx_nodes [] [⟨"z", "Z", "10.0.0.2", "DISABLED", 0, 0, true⟩] 5 =
      ([⟨"z", "Z", "10.0.0.2", "DISABLED", 0, 0, true⟩], []) := by decide

/-- C2 (amended: for every NON-EMPTY snapshot): reconciliation partitions
ids exactly — the `added` events are exactly the snapshot entries whose
id is absent from the store (created via `new_node`: active, first seen =
last seen = now); the `reappeared` events exactly the persisted-inactive
snapshot entries; the `removed` events exactly the persisted rows whose
id is not in the snapshot, with name/address denormalized from the
pre-update persisted row; no other events are produced; surviving rows are
refreshed (and reactivated when inactive), absent rows flipped inactive,
intersection-active rows refreshed silently. -/
theorem C2_reconciliation_partition (snapshot : List NSXNode)
    (existing : List TransportNode) (now : Nat)
    (hne : snapshot ≠ [])
    (hsnd : (snapshot.map (fun s => s.node_id)).Nodup) :
    (sync_nsx_nodes snapshot existing now).2.filter
        (fun e => e.event_type = "added") =
      (snapshot.filter (is_new_in existing)).map added_event ∧
    (sync_nsx_nodes snapshot existing now).2.filter
        (fun e => e.event_type = "reappeared") =
      (snapshot.filter (is_reappeared_in existing)).map reappeared_event ∧
    (sync_nsx_nodes snapshot existing now).2.filter
        (fun e => e.event_type = "removed") =
      (existing.filter
        (fun n => n.id ∉ snapshot.map (fun s => s.node_id))).map
        removed_event ∧
    (∀ e ∈ (sync_nsx_nodes snapshot existing now).2,
      e.event_type = "added" ∨ e.event_type = "reappeared" ∨
        e.event_type = "removed") ∧
    (sync_nsx_nodes snapshot existing now).1 =
      existing.map (sync_row_update snapshot now)
        ++ (snapshot.filter (is_new_in existing)).map
          (fun s => new_node s now) ∧
    (∀ s : NSXNode, (new_node s now).is_active = true ∧
      (new_node s now).first_seen_at = now ∧
      (new_node s now).last_seen_at = now) ∧
    (∀ n ∈ existing, n.id ∉ snapshot.map (fun s => s.node_id) →
      sync_row_update snapshot now n = { n with is_active := false }) ∧
    (∀ n s, s ∈ snapshot → s.node_id = n.id → n.is_active = false →
      sync_row_update snapshot now n =
        { refresh_node n s now with is_active := true }) ∧
    (∀ n s, s ∈ snapshot → s.node_id = n.id → n.is_active = true →
      sync_row_update snapshot now n = refresh_node n s now) := by
  have hg : snapshot.isEmpty = false := by
    cases snapshot with
    | nil => exact absurd rfl hne
    | cons a l => rfl
  have hev : (sync_nsx_nodes snapshot existing now).2 =
      snapshot_events existing snapshot
        ++ removed_events existing (snapshot.map (fun s => s.node_id)) := by
    simp [sync_nsx_nodes, hg]
  have hnodes : (sync_nsx_nodes snapshot existing now).1 =
      existing.map (sync_row_update snapshot now)
        ++ (snapshot.filter (is_new_in existing)).map
          (fun s => new_node s now) := by
    simp [sync_nsx_nodes, hg]
    rfl
  have hrem_add : (removed_events existing
      (snapshot.map (fun s => s.node_id))).filter
        (fun e => e.event_type = "added") = [] :=
    List.filter_eq_nil_iff.mpr (fun e he hr => by
      rw [removed_events_types existing _ e he] at hr
      simp at hr)
  have hrem_re : (removed_events existing
      (snapshot.map (fun s => s.node_id))).filter
        (fun e => e.event_type = "reappeared") = [] :=
    List.filter_eq_nil_iff.mpr (fun e he hr => by
      rw [removed_events_types existing _ e he] at hr
      simp at hr)
  have hsnap_rem : (snapshot_events existing snapshot).filter
        (fun e => e.event_type = "removed") = [] :=
    List.filter_eq_nil_iff.mpr (fun e he hr => by
      rcases snapshot_events_types existing snapshot e he with h | h <;>
        rw [h] at hr <;> simp at hr)
  have hrem_self : (removed_events existing
      (snapshot.map (fun s => s.node_id))).filter
        (fun e => e.event_type = "removed") =
      removed_events existing (snapshot.map (fun s => s.node_id)) :=
    List.filter_eq_self.mpr (fun e he => by
      simp [removed_events_types existing _ e he])
  refine ⟨?_, ?_, ?_, ?_, hnodes, fun s => ⟨rfl, rfl, rfl⟩, ?_, ?_, ?_⟩
  · rw [hev, List.filter_append, snapshot_events_filter_added, hrem_add,
      List.append_nil]
  · rw [hev, List.filter_append, snapshot_events_filter_reappeared, hrem_re,
      List.append_nil]
  · rw [hev, List.filter_append, hsnap_rem, List.nil_append, hrem_self]
    rfl
  · intro e he
    rw [hev, List.mem_append] at he
    rcases he with he | he
    · rcases snapshot_events_types existing snapshot e he with h | h
      · exact Or.inl h
      · exact Or.inr (Or.inl h)
    · exact Or.inr (Or.inr (removed_events_types existing _ e he))
  · intro n hn hnot
    unfold sync_row_update
    rw [List.find?_eq_none.mpr
      (fun s hs hsid => hnot (by
        rw [← (by simpa using hsid : s.node_id = n.id)]
        exact List.mem_map_of_mem (fun s2 => s2.node_id) hs))]
  · intro n s hs hsid hina
    unfold sync_row_update
    rw [find_by_id_eq hsnd hs hsid, hina]
    rfl
  · intro n s hs hsid hact
    unfold sync_row_update
    rw [find_by_id_eq hsnd hs hsid, hact]
    rfl

/-- Witness for C2 at the spec's scenario A: snapshot = X, Y; persisted =
X (active), Z (active); exactly one `added` event, for Y. -/
theorem C2_reconciliation_partition_witness :
    (sync_nsx_nodes
      [⟨"x", "X", "10.0.0.1", "DISABLED", none⟩,
       ⟨"y", "Y", "10.0.0.3", "DISABLED", none⟩]
      [⟨"x", "X", "10.0.0.1", "DISABLED", 0, 0, true⟩,
       ⟨"z", "Z", "10.0.0.2", "DISABLED", 0, 0, true⟩] 7).2.filter
        (fun e => e.event_type = "added") =
      [⟨"y", "added", "Y", "10.0.0.3"⟩] :=
  ((C2_reconciliation_partition
    [⟨"x", "X", "10.0.0.1", "DISABLED", none⟩,
     ⟨"y", "Y", "10.0.0.3", "DISABLED", none⟩]
    [⟨"x", "X", "10.0.0.1", "DISABLED", 0, 0, true⟩,
     ⟨"z", "Z", "10.0.0.2", "DISABLED", 0, 0, true⟩] 7
    (by decide) (by decide)).1).trans (by decide)

/-- C8 counterexample: on a fetch exception the client delivers the empty
node list — exactly the value it delivers for a genuinely empty fleet —
not an explicit failure signal distinct from an empty list. -/
theorem C8_fetch_failure_counterexample :
    get_edge_transport_nodes (FetchOutcome.exc "connection refused") [] =
      ([] : List NSXNode) ∧
    get_edge_transport_nodes (FetchOutcome.httpOk []) [] =
      ([] : List NSXNode) := by
  exact ⟨rfl, rfl⟩

/-- C8 (amended): when the snapshot fetch fails (non-200 status or
exception), the client returns the empty list and the sync guard then
skips the cycle — the store is unchanged and no event is emitted, so no
mass false deactivation occurs — but the failure signal delivered is the
empty node list itself, indistinguishable from a genuinely empty fleet
(which is equally skipped). -/
theorem C8_fetch_failure_no_deactivation (msg text : String) (code : Nat)
    (wl : List String) (existing : List TransportNode) (now : Nat) :
    get_edge_transport_nodes (FetchOutcome.exc msg) wl = [] ∧
    get_edge_transport_nodes (FetchOutcome.httpError code text) wl = [] ∧
    sync_nsx_nodes (get_edge_transport_nodes (FetchOutcome.exc msg) wl)
      existing now = (existing, []) ∧
    sync_nsx_nodes
      (get_edge_transport_nodes (FetchOutcome.httpError code text) wl)
      existing now = (existing, []) :=
  ⟨rfl, rfl, rfl, rfl⟩

/-- C9: the claim (second run emits zero events) is contradicted by the
code: `removed_node_ids = existing − snapshot` never consults `is_active`
— unlike the reappeared branch — so a node deactivated by the first run
receives another `removed` event (and another removal notification) on
every subsequent run with the same snapshot and unchanged state.  Both
runs below emit a `removed` event for z. -/
theorem C9_second_run_emits_removed :
    (sync_nsx_nodes [⟨"x", "X", "10.0.0.1", "DISABLED", none⟩]
      [⟨"x", "X", "10.0.0.1", "DISABLED", 0, 0, true⟩,
       ⟨"z", "Z", "10.0.0.2", "DISABLED", 0, 0, true⟩] 1).2 =
      [⟨"z", "removed", "Z", "10.0.0.2"⟩] ∧
    (sync_nsx_nodes [⟨"x", "X", "10.0.0.1", "DISABLED", none⟩]
      ((sync_nsx_nodes [⟨"x", "X", "10.0.0.1", "DISABLED", none⟩]
        [⟨"x", "X", "10.0.0.1", "DISABLED", 0, 0, true⟩,
         ⟨"z", "Z", "10.0.0.2", "DISABLED", 0, 0, true⟩] 1).1) 2).2 =
      [⟨"z", "removed", "Z", "10.0.0.2"⟩] := by
  exact ⟨by decide, by decide⟩

theorem first_per_node_aux_subset
    (l : List (TransportNode × CertificateCheck)) :
    ∀ seen, ∀ p ∈ first_per_node_aux seen l, p ∈ l := by
  induction l with
  | nil =>
    intro seen p hp
    cases hp
  | cons r rest ih =>
    intro seen p hp
    rw [first_per_node_aux] at hp
    by_cases hr : r.1.id ∈ seen
    · rw [if_pos hr] at hp
      exact List.mem_cons_of_mem _ (ih seen p hp)
    · rw [if_neg hr] at hp
      rcases List.mem_cons.mp hp with rfl | hp2
      · exact List.mem_cons_self _ _
      · exact List.mem_cons_of_mem _ (ih _ p hp2)

theorem first_per_node_aux_not_seen
    (l : List (TransportNode × CertificateCheck)) :
    ∀ seen, ∀ p ∈ first_per_node_aux seen l, p.1.id ∉ seen := by
  induction l with
  | nil =>
    intro seen p hp
    cases hp
  | cons r rest ih =>
    intro seen p hp
    rw [first_per_node_aux] at hp
    by_cases hr : r.1.id ∈ seen
    · rw [if_pos hr] at hp
      exact ih seen p hp
    · rw [if_neg hr] at hp
      rcases List.mem_cons.mp hp with rfl | hp2
      · exact hr
      · have := ih _ p hp2
        intro hmem
        exact this (List.mem_cons_of_mem _ hmem)

theorem first_per_node_aux_max
    (l : List (TransportNode × CertificateCheck)) :
    ∀ seen, l.Sorted check_row_desc →
      ∀ p ∈ first_per_node_aux seen l, ∀ q ∈ l, q.1.id = p.1.id →
        q.2.checked_at ≤ p.2.checked_at := by
  induction l with
  | nil =>
    intro seen _ p hp
    cases hp
  | cons r rest ih =>
    intro seen hs p hp q hq hid
    have hs' := List.sorted_cons.mp hs
    rw [first_per_node_aux] at hp
    by_cases hr : r.1.id ∈ seen
    · rw [if_pos hr] at hp
      rcases List.mem_cons.mp hq with rfl | hq2
      · exact absurd (hid ▸ hr)
          (first_per_node_aux_not_seen rest seen p hp)
      · exact ih seen hs'.2 p hp q hq2 hid
    · rw [if_neg hr] at hp
      rcases List.mem_cons.mp hp with rfl | hp2
      · rcases List.mem_cons.mp hq with rfl | hq2
        · exact Nat.le_refl _
        · exact hs'.1 q hq2
      · rcases List.mem_cons.mp hq with rfl | hq2
        · have hnp := first_per_node_aux_not_seen rest _ p hp2
          exact absurd (by rw [hid]; exact List.mem_cons_self _ _) hnp
        · exact ih _ hs'.2 p hp2 q hq2 hid

theorem first_per_node_aux_exists
    (l : List (TransportNode × CertificateCheck)) :
    ∀ seen (nid : String), nid ∉ seen → (∃ p ∈ l, p.1.id = nid) →
      ∃ q ∈ first_per_node_aux seen l, q.1.id = nid := by
  induction l with
  | nil =>
    rintro seen nid _ ⟨p, hp, _⟩
    cases hp
  | cons r rest ih =>
    rintro seen nid hnid ⟨p, hp, hid⟩
    rw [first_per_node_aux]
    by_cases hr : r.1.id ∈ seen
    · rw [if_pos hr]
      rcases List.mem_cons.mp hp with rfl | hp2
      · exact absurd (hid ▸ hr) hnid
      · exact ih seen nid hnid ⟨p, hp2, hid⟩
    · rw [if_neg hr]
      by_cases hrn : r.1.id = nid
      · exact ⟨r, List.mem_cons_self _ _, hrn⟩
      · rcases List.mem_cons.mp hp with rfl | hp2
        · exact absurd hid hrn
        · have hnid2 : nid ∉ r.1.id :: seen := by
            intro hmem
            rcases List.mem_cons.mp hmem with rfl | hmem2
            · exact hrn rfl
            · exact hnid hmem2
          obtain ⟨q, hq, hqid⟩ := ih _ nid hnid2 ⟨p, hp2, hid⟩
          exact ⟨q, List.mem_cons_of_mem _ hq, hqid⟩

theorem first_per_node_subset (l : List (TransportNode × CertificateCheck)) :
    ∀ p ∈ first_per_node l, p ∈ l :=
  first_per_node_aux_subset l []

theorem first_per_node_max (l : List (TransportNode × CertificateCheck))
    (hs : l.Sorted check_row_desc) :
    ∀ p ∈ first_per_node l, ∀ q ∈ l, q.1.id = p.1.id →
      q.2.checked_at ≤ p.2.checked_at :=
  first_per_node_aux_max l [] hs

theorem first_per_node_exists (l : List (TransportNode × CertificateCheck))
    (nid : String) :
    (∃ p ∈ l, p.1.id = nid) → ∃ q ∈ first_per_node l, q.1.id = nid :=
  first_per_node_aux_exists l [] nid (by simp)

theorem mem_joined_success_rows (nodes : List TransportNode)
    (checks : List CertificateCheck)
    (p : TransportNode × CertificateCheck) :
    p ∈ joined_success_rows nodes checks ↔
      p.1 ∈ nodes ∧ p.1.is_active = true ∧ p.2 ∈ checks ∧
      p.2.node_id = p.1.id ∧ p.2.check_status = "success" := by
  simp only [joined_success_rows, List.mem_bind, List.mem_map,
    List.mem_filter, decide_eq_true_eq]
  constructor
  · rintro ⟨n, ⟨hn, hact⟩, c, ⟨hc, hcid, hcs⟩, rfl⟩
    exact ⟨hn, hact, hc, hcid, hcs⟩
  · rintro ⟨hn, hact, hc, hcid, hcs⟩
    exact ⟨p.1, ⟨hn, hact⟩, p.2, ⟨hc, hcid, hcs⟩, rfl⟩

theorem mem_node_latest_checks (nodes : List TransportNode)
    (checks : List CertificateCheck)
    (p : TransportNode × CertificateCheck)
    (hp : p ∈ node_latest_checks nodes checks) :
    p.1 ∈ nodes ∧ p.1.is_active = true ∧ p.2 ∈ checks ∧
      p.2.node_id = p.1.id ∧ p.2.check_status = "success" := by
  have h1 := first_per_node_subset _ p hp
  have h2 : p ∈ joined_success_rows nodes checks :=
    (List.perm_insertionSort check_row_desc
      (joined_success_rows nodes checks)).mem_iff.mp h1
  exact (mem_joined_success_rows nodes checks p).mp h2

/-- C7 counterexample: node x's most recent check (t=2) failed, an older
check (t=1) succeeded with 5 days remaining; the claim requires exclusion
from all tiers, but the query filters on `check_status == 'success'`
BEFORE taking the latest row, so the stale success still classifies the
node into the critical tier. -/
theorem C7_latest_failed_counterexample :
    expiring_very_soon_bucket
      (node_latest_checks
        [⟨"x", "X", "10.0.0.1", "DISABLED", 0, 0, true⟩]
        [⟨"x", some 123, 5, "success", none, 1⟩,
         ⟨"x", none, -999, "error", some "Command failed: ", 2⟩]) =
      [(⟨"x", "X", "10.0.0.1", "DISABLED", 0, 0, true⟩,
        ⟨"x", some 123, 5, "success", none, 1⟩)] := by
  decide

/-- C7 (amended): tier candidacy is decided by the most recent SUCCESSFUL
check: every selected pair is an active persisted node with one of its own
successful checks, maximal by timestamp among that node's successful
checks; an active node possessing any successful check is selected; and a
node with no successful check ever is excluded from all tiers.  (A failed
check that is more recent than an old success does not exclude the node —
the old success still classifies it.) -/
theorem C7_no_success_excluded (nodes : List TransportNode)
    (checks : List CertificateCheck) (w : Int) :
    (∀ p ∈ node_latest_checks nodes checks,
      p.1 ∈ nodes ∧ p.1.is_active = true ∧ p.2 ∈ checks ∧
      p.2.node_id = p.1.id ∧ p.2.check_status = "success") ∧
    (∀ p ∈ node_latest_checks nodes checks, ∀ c ∈ checks,
      c.node_id = p.1.id → c.check_status = "success" →
      c.checked_at ≤ p.2.checked_at) ∧
    (∀ n ∈ nodes, n.is_active = true →
      (∃ c ∈ checks, c.node_id = n.id ∧ c.check_status = "success") →
      ∃ q ∈ node_latest_checks nodes checks, q.1.id = n.id) ∧
    (∀ n : TransportNode,
      (∀ c ∈ checks, c.node_id = n.id → c.check_status ≠ "success") →
      ∀ c2 : CertificateCheck,
        (n, c2) ∉ expired_bucket (node_latest_checks nodes checks) ∧
        (n, c2) ∉ expiring_very_soon_bucket
          (node_latest_checks nodes checks) ∧
        (n, c2) ∉ expiring_soon_bucket w
          (node_latest_checks nodes checks)) := by
  have hsorted : (sorted_success_rows nodes checks).Sorted check_row_desc :=
    List.sorted_insertionSort check_row_desc (joined_success_rows nodes checks)
  have hnotin : ∀ n : TransportNode,
      (∀ c ∈ checks, c.node_id = n.id → c.check_status ≠ "success") →
      ∀ c2 : CertificateCheck,
        (n, c2) ∉ node_latest_checks nodes checks := by
    intro n hn c2 hmem
    have h := mem_node_latest_checks nodes checks (n, c2) hmem
    exact hn c2 h.2.2.1 h.2.2.2.1 h.2.2.2.2
  refine ⟨mem_node_latest_checks nodes checks, ?_, ?_, ?_⟩
  · intro p hp c hc hcid hcs
    have h1 := mem_node_latest_checks nodes checks p hp
    have hrow : (p.1, c) ∈ sorted_success_rows nodes checks :=
      (List.perm_insertionSort check_row_desc
        (joined_success_rows nodes checks)).mem_iff.mpr
        ((mem_joined_success_rows nodes checks (p.1, c)).mpr
          ⟨h1.1, h1.2.1, hc, hcid, hcs⟩)
    exact first_per_node_max _ hsorted p hp (p.1, c) hrow rfl
  · rintro n hn hact ⟨c, hc, hcid, hcs⟩
    have hrow : (n, c) ∈ sorted_success_rows nodes checks :=
      (List.perm_insertionSort check_row_desc
        (joined_success_rows nodes checks)).mem_iff.mpr
        ((mem_joined_success_rows nodes checks (n, c)).mpr
          ⟨hn, hact, hc, hcid, hcs⟩)
    exact first_per_node_exists _ n.id ⟨(n, c), hrow, rfl⟩
  · intro n hn c2
    refine ⟨fun hmem => ?_, fun hmem => ?_, fun hmem => ?_⟩
    · exact hnotin n hn c2
        ((mem_expired_bucket _ (n, c2) w).mp hmem).1
    · exact hnotin n hn c2
        ((mem_expiring_very_soon_bucket _ (n, c2) w).mp hmem).1
    · exact hnotin n hn c2
        ((mem_expiring_soon_bucket w _ (n, c2)).mp hmem).1

/-- Witness for C7: a node whose only check errored is not in the critical
bucket. -/
theorem C7_no_success_excluded_witness :
    (⟨"x", "X", "10.0.0.1", "DISABLED", 0, 0, true⟩,
      (⟨"x", none, -999, "error", some "boom", 2⟩ : CertificateCheck)) ∉
      expiring_very_soon_bucket
        (node_latest_checks
          [⟨"x", "X", "10.0.0.1", "DISABLED", 0, 0, true⟩]
          [⟨"x", none, -999, "error", some "boom", 2⟩]) :=
  ((C7_no_success_excluded
    [⟨"x", "X", "10.0.0.1", "DISABLED", 0, 0, true⟩]
    [⟨"x", none, -999, "error", some "boom", 2⟩] 30).2.2.2
    ⟨"x", "X", "10.0.0.1", "DISABLED", 0, 0, true⟩
    (by decide)
    ⟨"x", none, -999, "error", some "boom", 2⟩).2.1

theorem has_notification_iff_mem (st : List TelegramNotification)
    (nid ntype nd : String) :
    has_notification st nid ntype nd = true ↔
      (nid, ntype, nd) ∈ st.map notification_key := by
  simp only [has_notification, List.any_eq_true, decide_eq_true_eq,
    List.mem_map, notification_key, Prod.mk.injEq]

theorem has_notification_append (st ext : List TelegramNotification)
    (nid ntype nd : String)
    (h : has_notification st nid ntype nd = true) :
    has_notification (st ++ ext) nid ntype nd = true := by
  simp only [has_notification, List.any_append, Bool.or_eq_true]
  exact Or.inl h

theorem send_cert_state_ext (st : List TelegramNotification)
    (g : List (TransportNode × CertificateCheck)) (ntype today : String)
    (ok : Bool) :
    ∃ ext, (send_cert_notifications st g ntype today ok).1 = st ++ ext := by
  simp only [send_cert_notifications]
  split_ifs
  · exact ⟨[], (List.append_nil st).symm⟩
  · exact ⟨_, rfl⟩
  · exact ⟨[], (List.append_nil st).symm⟩

theorem notify_tier_state_ext (st : List TelegramNotification)
    (bucket : List (TransportNode × CertificateCheck))
    (ntype today : String) (ok : Bool) :
    ∃ ext, (notify_tier st bucket ntype today ok).1 = st ++ ext := by
  unfold notify_tier
  split_ifs
  · exact ⟨[], (List.append_nil st).symm⟩
  · exact send_cert_state_ext st bucket ntype today ok

theorem send_cert_covers (st : List TelegramNotification)
    (g : List (TransportNode × CertificateCheck)) (ntype today : String) :
    ∀ nc ∈ g, has_notification
      ((send_cert_notifications st g ntype today true).1)
      nc.1.id ntype today = true := by
  intro nc hnc
  simp only [send_cert_notifications]
  by_cases hemp : (g.filter
      (fun nc => ¬ has_notification st nc.1.id ntype today)).isEmpty
  · rw [if_pos hemp]
    have h := List.filter_eq_nil_iff.mp (List.isEmpty_iff.mp hemp) nc hnc
    simpa using h
  · rw [if_neg hemp, if_pos trivial]
    by_cases hhas : has_notification st nc.1.id ntype today = true
    · exact has_notification_append _ _ _ _ _ hhas
    · simp only [has_notification, List.any_append, Bool.or_eq_true]
      refine Or.inr ?_
      simp only [List.any_eq_true, List.mem_map, List.mem_filter]
      exact ⟨⟨nc.1.id, ntype, today⟩,
        ⟨nc, ⟨hnc, by simpa [has_notification, List.any_eq_true] using hhas⟩,
          rfl⟩,
        by simp⟩

theorem notify_tier_covers (st : List TelegramNotification)
    (bucket : List (TransportNode × CertificateCheck))
    (ntype today : String) :
    ∀ nc ∈ bucket, has_notification
      ((notify_tier st bucket ntype today true).1) nc.1.id ntype today
      = true := by
  intro nc hnc
  unfold notify_tier
  by_cases hemp : bucket.isEmpty
  · rw [List.isEmpty_iff.mp hemp] at hnc
    cases hnc
  · rw [if_neg hemp]
    exact send_cert_covers st bucket ntype today nc hnc

theorem notify_tier_noop (st : List TelegramNotification)
    (bucket : List (TransportNode × CertificateCheck))
    (ntype today : String) (ok : Bool)
    (h : ∀ nc ∈ bucket, has_notification st nc.1.id ntype today = true) :
    notify_tier st bucket ntype today ok = (st, false) := by
  unfold notify_tier
  by_cases hemp : bucket.isEmpty
  · rw [if_pos hemp]
  · rw [if_neg hemp]
    simp only [send_cert_notifications]
    have hnil : bucket.filter
        (fun nc => ¬ has_notification st nc.1.id ntype today) = [] :=
      List.filter_eq_nil_iff.mpr (fun nc hnc => by simp [h nc hnc])
    rw [hnil]
    rfl

theorem send_cert_nodup (st : List TelegramNotification)
    (g : List (TransportNode × CertificateCheck)) (ntype today : String)
    (ok : Bool) (hst : notif_keys_nodup st)
    (hg : (g.map (fun nc => nc.1.id)).Nodup) :
    notif_keys_nodup (send_cert_notifications st g ntype today ok).1 := by
  simp only [send_cert_notifications]
  split_ifs with h1 h2
  · exact hst
  · unfold notif_keys_nodup
    rw [List.map_append]
    refine List.Nodup.append hst ?_ ?_
    · rw [List.map_map]
      have hsub : List.Sublist
          ((g.filter
            (fun nc => ¬ has_notification st nc.1.id ntype today)).map
              (fun nc => nc.1.id))
          (g.map (fun nc => nc.1.id)) :=
        (List.filter_sublist g).map (fun nc => nc.1.id)
      have hnd : ((g.filter
          (fun nc => ¬ has_notification st nc.1.id ntype today)).map
            (fun nc => nc.1.id)).Nodup := List.Nodup.sublist hsub hg
      have heq : (notification_key ∘ fun nc : TransportNode × CertificateCheck =>
          (⟨nc.1.id, ntype, today⟩ : TelegramNotification)) =
          ((fun i => (i, ntype, today)) ∘
            (fun nc : TransportNode × CertificateCheck => nc.1.id)) := rfl
      rw [heq, ← List.map_map]
      exact hnd.map (fun a b hab => congrArg Prod.fst hab)
    · intro k hk hk2
      rw [List.map_map] at hk2
      obtain ⟨nc, hnc, rfl⟩ := List.mem_map.mp hk2
      have hfil := (List.mem_filter.mp hnc).2
      have hnot : ¬ has_notification st nc.1.id ntype today = true := by
        simpa using hfil
      exact hnot ((has_notification_iff_mem st nc.1.id ntype today).mpr hk)
  · exact hst

theorem notify_tier_nodup (st : List TelegramNotification)
    (bucket : List (TransportNode × CertificateCheck))
    (ntype today : String) (ok : Bool) (hst : notif_keys_nodup st)
    (hb : (bucket.map (fun nc => nc.1.id)).Nodup) :
    notif_keys_nodup (notify_tier st bucket ntype today ok).1 := by
  unfold notify_tier
  split_ifs
  · exact hst
  · exact send_cert_nodup st bucket ntype today ok hst hb

theorem check_and_notify_noop (st1 : List TelegramNotification)
    (latest : List (TransportNode × CertificateCheck)) (w : Int)
    (today : String) (g : String → Bool)
    (h1 : ∀ nc ∈ expired_bucket latest,
      has_notification st1 nc.1.id "cert_expired" today = true)
    (h2 : ∀ nc ∈ expiring_very_soon_bucket latest,
      has_notification st1 nc.1.id "cert_expiring_7d" today = true)
    (h3 : ∀ nc ∈ expiring_soon_bucket w latest,
      has_notification st1 nc.1.id "cert_expiring_30d" today = true) :
    check_and_notify_expiring_certs st1 latest w today g = (st1, []) := by
  simp only [check_and_notify_expiring_certs]
  rw [notify_tier_noop _ _ _ _ _ h1]
  dsimp only
  rw [notify_tier_noop _ _ _ _ _ h2]
  dsimp only
  rw [notify_tier_noop _ _ _ _ _ h3]
  simp

theorem check_and_notify_covers (st : List TelegramNotification)
    (latest : List (TransportNode × CertificateCheck)) (w : Int)
    (today : String) :
    (∀ nc ∈ expired_bucket latest, has_notification
      ((check_and_notify_expiring_certs st latest w today
        (fun _ => true)).1) nc.1.id "cert_expired" today = true) ∧
    (∀ nc ∈ expiring_very_soon_bucket latest, has_notification
      ((check_and_notify_expiring_certs st latest w today
        (fun _ => true)).1) nc.1.id "cert_expiring_7d" today = true) ∧
    (∀ nc ∈ expiring_soon_bucket w latest, has_notification
      ((check_and_notify_expiring_certs st latest w today
        (fun _ => true)).1) nc.1.id "cert_expiring_30d" today = true) := by
  have hunf : (check_and_notify_expiring_certs st latest w today
      (fun _ => true)).1 =
    (notify_tier
      (notify_tier
        (notify_tier st (expired_bucket latest) "cert_expired" today
          true).1
        (expiring_very_soon_bucket latest) "cert_expiring_7d" today true).1
      (expiring_soon_bucket w latest) "cert_expiring_30d" today true).1 :=
    rfl
  obtain ⟨e2, he2⟩ := notify_tier_state_ext
    (notify_tier st (expired_bucket latest) "cert_expired" today true).1
    (expiring_very_soon_bucket latest) "cert_expiring_7d" today true
  obtain ⟨e3, he3⟩ := notify_tier_state_ext
    (notify_tier
      (notify_tier st (expired_bucket latest) "cert_expired" today true).1
      (expiring_very_soon_bucket latest) "cert_expiring_7d" today true).1
    (expiring_soon_bucket w latest) "cert_expiring_30d" today true
  refine ⟨?_, ?_, ?_⟩
  · intro nc hnc
    rw [hunf, he3, he2, List.append_assoc]
    exact has_notification_append _ _ _ _ _
      (notify_tier_covers st (expired_bucket latest) "cert_expired" today
        nc hnc)
  · intro nc hnc
    rw [hunf, he3]
    exact has_notification_append _ _ _ _ _
      (notify_tier_covers _ (expiring_very_soon_bucket latest)
        "cert_expiring_7d" today nc hnc)
  · intro nc hnc
    rw [hunf]
    exact notify_tier_covers _ (expiring_soon_bucket w latest)
      "cert_expiring_30d" today nc hnc

/-- C1: (a) a failed delivery writes no records — the state after
`send_cert_notifications` with a failed send is exactly the input state;
(b) the at-most-one-record-per-(node, tier, day) invariant is preserved
by a full dedup-engine run, whatever each tier's delivery outcome;
(c) re-running the engine the same day after a fully successful run over
an unchanged result set changes no state and attempts no send. -/
theorem C1_notification_dedup (st : List TelegramNotification)
    (latest : List (TransportNode × CertificateCheck)) (w : Int)
    (today : String) (f g : String → Bool)
    (hids : (latest.map (fun nc => nc.1.id)).Nodup)
    (hst : notif_keys_nodup st) :
    (∀ group ntype,
      (send_cert_notifications st group ntype today false).1 = st) ∧
    notif_keys_nodup
      (check_and_notify_expiring_certs st latest w today f).1 ∧
    check_and_notify_expiring_certs
      (check_and_notify_expiring_certs st latest w today (fun _ => true)).1
      latest w today g =
      ((check_and_notify_expiring_certs st latest w today
        (fun _ => true)).1, []) := by
  refine ⟨?_, ?_, ?_⟩
  · intro group ntype
    simp only [send_cert_notifications, Bool.false_eq_true, if_false]
    split_ifs <;> rfl
  · have hb1 : ((expired_bucket latest).map (fun nc => nc.1.id)).Nodup :=
      List.Nodup.sublist ((List.filter_sublist latest).map _) hids
    have hb2 : ((expiring_very_soon_bucket latest).map
        (fun nc => nc.1.id)).Nodup :=
      List.Nodup.sublist ((List.filter_sublist latest).map _) hids
    have hb3 : ((expiring_soon_bucket w latest).map
        (fun nc => nc.1.id)).Nodup :=
      List.Nodup.sublist ((List.filter_sublist latest).map _) hids
    exact notify_tier_nodup _ _ _ _ _
      (notify_tier_nodup _ _ _ _ _
        (notify_tier_nodup _ _ _ _ _ hst hb1) hb2) hb3
  · obtain ⟨h1, h2, h3⟩ := check_and_notify_covers st latest w today
    exact check_and_notify_noop _ latest w today g h1 h2 h3

/-- Witness for C1 at concrete inputs: one node 5 days from expiry, empty
record state; a successful run leaves a state whose keys satisfy the
uniqueness invariant. -/
theorem C1_notification_dedup_witness :
    notif_keys_nodup
      (check_and_notify_expiring_certs []
        [(⟨"x", "X", "10.0.0.1", "DISABLED", 0, 0, true⟩,
          ⟨"x", some 123, 5, "success", none, 1⟩)]
        30 "2026-10-12" (fun _ => true)).1 :=
  (C1_notification_dedup []
    [(⟨"x", "X", "10.0.0.1", "DISABLED", 0, 0, true⟩,
      ⟨"x", some 123, 5, "success", none, 1⟩)]
    30 "2026-10-12" (fun _ => true) (fun _ => true)
    (by decide) (by simp [notif_keys_nodup])).2.1

end NsxEtn

